import Mathlib

set_option maxRecDepth 8192

/-!
Verification of the EFCT VI data-path core (src/src/lib/ciul/efct_vi.c).

The C code is shallowly embedded: machine integers become `Nat` with
explicit `% 2^w` where overflow matters, per-VI mutable state becomes
records passed explicitly, device memory reads become function parameters,
and calls into the resource-manager vtable become explicit parameters
(the outcome of `ops.next`) or event logs (calls to `ops.free`, writes to
the credit register and the CTPIO aperture).

Constants that live in headers outside this repository (field widths,
discard-flag bits, errno values) are modelled from the spec; each such
definition is marked `Modelled from the spec:`.
-/

/-! ## Packet-ID codec (module A) -/

/-- `#define PKT_ID_PKT_BITS 16` -/
def PKT_ID_PKT_BITS : Nat := 16

/-- `#define PKT_ID_SBUF_BITS 11` -/
def PKT_ID_SBUF_BITS : Nat := 11

/-- `#define PKT_ID_RXQ_BITS 3` -/
def PKT_ID_RXQ_BITS : Nat := 3

/-- Modelled from the spec: `CI_EFCT_MAX_SUPERBUFS` comes from a header not
in this repository; the spec fixes `MAX_SUPERBUFS = 2^11`. -/
def CI_EFCT_MAX_SUPERBUFS : Nat := 2048

/-- Modelled from the spec: `EF_VI_MAX_EFCT_RXQS` comes from a header not in
this repository; the spec says a VI hosts up to 8 RXQs, `≤ 2^3`. -/
def EF_VI_MAX_EFCT_RXQS : Nat := 8

/-- `pkt_id & ((1u << PKT_ID_PKT_BITS) - 1)` -/
def pkt_id_to_index_in_superbuf (pkt_id : Nat) : Nat :=
  pkt_id &&& ((1 <<< PKT_ID_PKT_BITS) - 1)

/-- `pkt_id >> PKT_ID_PKT_BITS` -/
def pkt_id_to_global_superbuf_ix (pkt_id : Nat) : Nat :=
  pkt_id >>> PKT_ID_PKT_BITS

/-- `pkt_id_to_global_superbuf_ix(pkt_id) & (CI_EFCT_MAX_SUPERBUFS - 1)` -/
def pkt_id_to_local_superbuf_ix (pkt_id : Nat) : Nat :=
  pkt_id_to_global_superbuf_ix pkt_id &&& (CI_EFCT_MAX_SUPERBUFS - 1)

/-- `pkt_id_to_global_superbuf_ix(pkt_id) / CI_EFCT_MAX_SUPERBUFS` -/
def pkt_id_to_rxq_ix (pkt_id : Nat) : Nat :=
  pkt_id_to_global_superbuf_ix pkt_id / CI_EFCT_MAX_SUPERBUFS

/-- `ptr & 0x7fffffff`; the C parameter is `uint32_t`, so a 64-bit argument
is first truncated mod `2^32`. -/
def rxq_ptr_to_pkt_id (ptr : Nat) : Nat :=
  (ptr % 2 ^ 32) &&& 0x7fffffff

/-- `ptr >> 31` on the truncated 32-bit pointer. -/
def rxq_ptr_to_sentinel (ptr : Nat) : Nat :=
  (ptr % 2 ^ 32) >>> 31

/-- The spec's encoder: `(rxq*2048 + sb) << 16 | pkt`
(§3 Packet-ID encoding; also built by `rx_rollover`). -/
def encode_pkt_id (rxq sb pkt : Nat) : Nat :=
  ((rxq * CI_EFCT_MAX_SUPERBUFS + sb) <<< PKT_ID_PKT_BITS) ||| pkt

/-! ## Discard flags and RX header fields

The numeric values of the `EF_VI_DISCARD_RX_*` flags and of the RX-header
field encodings live in headers outside this repository.  Only their
distinctness matters to the code under verification. -/

/-- Modelled from the spec: discard flag bit (header `etherfabric/ef_vi.h`
is not in the repository; the seven flags are distinct bits). -/
def EF_VI_DISCARD_RX_L4_CSUM_ERR : Nat := 1

/-- Modelled from the spec: discard flag bit. -/
def EF_VI_DISCARD_RX_L3_CSUM_ERR : Nat := 2

/-- Modelled from the spec: discard flag bit. -/
def EF_VI_DISCARD_RX_ETH_FCS_ERR : Nat := 4

/-- Modelled from the spec: discard flag bit. -/
def EF_VI_DISCARD_RX_ETH_LEN_ERR : Nat := 8

/-- Modelled from the spec: discard flag bit. -/
def EF_VI_DISCARD_RX_L2_CLASS_OTHER : Nat := 16

/-- Modelled from the spec: discard flag bit. -/
def EF_VI_DISCARD_RX_L3_CLASS_OTHER : Nat := 32

/-- Modelled from the spec: discard flag bit. -/
def EF_VI_DISCARD_RX_L4_CLASS_OTHER : Nat := 64

/-- Modelled from the spec: `L2_STATUS` field value for an FCS error
(nonzero, distinct from `LEN_ERR`; the wire-format header is external). -/
def EFCT_RX_HEADER_L2_STATUS_FCS_ERR : Nat := 1

/-- Modelled from the spec: `L2_STATUS` field value for a length error. -/
def EFCT_RX_HEADER_L2_STATUS_LEN_ERR : Nat := 2

/-- Modelled from the spec: `L3_CLASS` field value for IPv4. -/
def EFCT_RX_HEADER_L3_CLASS_IP4 : Nat := 0

/-- Modelled from the spec: `L3_CLASS` field value for IPv6. -/
def EFCT_RX_HEADER_L3_CLASS_IP6 : Nat := 1

/-- Modelled from the spec: `L3_CLASS` field value for any other L3. -/
def EFCT_RX_HEADER_L3_CLASS_OTHER : Nat := 3

/-- Modelled from the spec: `L4_CLASS` field value for TCP. -/
def EFCT_RX_HEADER_L4_CLASS_TCP : Nat := 0

/-- Modelled from the spec: `L4_CLASS` field value for UDP. -/
def EFCT_RX_HEADER_L4_CLASS_UDP : Nat := 1

/-- Modelled from the spec: `L4_CLASS` field value for any other L4. -/
def EFCT_RX_HEADER_L4_CLASS_OTHER : Nat := 3

/-- Modelled from the spec: `L2_CLASS` field value for a non-Ethernet
frame class. -/
def EFCT_RX_HEADER_L2_CLASS_OTHER : Nat := 1

/-- The 128-bit RX metadata header, as a record of its fields.  Modelled
from the spec's wire-format list (§6): the exact bit positions live in an
external header; the code only reads whole fields, plus the fact (used by
`CHECK_FIELDS`) that `L2/L3/L4_STATUS` and `ROLLOVER` sit in the low
64-bit word. -/
structure EfctRxHeader where
  sentinel : Nat
  rollover : Nat
  l2_status : Nat
  l3_status : Nat
  l4_status : Nat
  l2_class : Nat
  l3_class : Nat
  l4_class : Nat
  packet_length : Nat
  filter : Nat
  user : Nat
  next_frame_loc : Nat
  timestamp : Nat
  timestamp_status : Nat
deriving DecidableEq

/-- `struct efct_rx_descriptor` -/
structure EfctRxDesc where
  refcnt : Nat
  superbuf_pkts : Nat
  sbid_next : Nat
  final_ts_status : Nat
  final_timestamp : Nat
deriving DecidableEq

/-- Pointwise update of a function-indexed table. -/
def updf {α : Type} (f : Nat → α) (i : Nat) (v : α) : Nat → α :=
  fun j => if j = i then v else f j

/-- Superbuf descriptor table (indexed by global superbuf index) together
with the log of `ops.free(vi, rxq, local_sb)` calls made so far. -/
structure RxDescSt where
  descs : Nat → EfctRxDesc
  frees : List (Nat × Nat)

/-- `efct_vi_rxpkt_release`: decrement the superbuf's refcount (a
`uint16_t`, hence the `% 2^16`); if it reaches zero, call
`ops.free(vi, rxq_ix, local_sb)`. -/
def efct_vi_rxpkt_release (s : RxDescSt) (pkt_id : Nat) : RxDescSt :=
  let g := pkt_id_to_global_superbuf_ix pkt_id
  let d := s.descs g
  let r' := (d.refcnt + 2 ^ 16 - 1) % 2 ^ 16
  let s' : RxDescSt := { s with descs := updf s.descs g { d with refcnt := r' } }
  if r' = 0 then
    { s' with frees := s'.frees ++
        [(pkt_id_to_rxq_ix pkt_id, pkt_id_to_local_superbuf_ix pkt_id)] }
  else s'

/-- A sequence of `efct_vi_rxpkt_release` calls. -/
def rxpkt_release_list (s : RxDescSt) (l : List Nat) : RxDescSt :=
  l.foldl efct_vi_rxpkt_release s

/-- `ef_vi_efct_rxq_ptr`: `next` (64-bit: sbseq in the high 32 bits,
sentinel in bit 31, packet id below), `prev`, and `end` (named `endId`
because `end` is reserved in Lean). -/
structure EfctRxqPtr where
  next : Nat
  prev : Nat
  endId : Nat
deriving DecidableEq

/-- `rx_rollover(vi, qid)`.  The outcome of `ops.next` is passed in as
`next_result` (`none` models `rc < 0`): on `some (rc, sentinel, sbseq)`
the new local superbuf index is `rc`.  Returns `none` exactly when the C
function returns `rc < 0` (leaving the state untouched). -/
def rx_rollover (qid superbuf_pkts : Nat) (next_result : Option (Nat × Bool × Nat))
    (p : EfctRxqPtr) (ds : RxDescSt) : Option (EfctRxqPtr × RxDescSt) :=
  match next_result with
  | none => none
  | some (rc, sentinel, sbseq) =>
    let pkt_id := ((qid * CI_EFCT_MAX_SUPERBUFS + rc) <<< PKT_ID_PKT_BITS) % 2 ^ 32
    let next0 := pkt_id ||| ((if sentinel then 1 else 0) <<< 31)
    let (prev', ds', next') :=
      if p.endId = 0 then
        -- special case for when we want to ignore the first metadata
        (pkt_id, ds, (next0 + 1) % 2 ^ 32)
      else if sbseq ≠ (p.next >>> 32) + 1 then
        -- nodescdrop on the swrxq
        (pkt_id, efct_vi_rxpkt_release ds p.prev, (next0 + 1) % 2 ^ 32)
      else
        (p.prev, ds, next0)
    let g := pkt_id_to_global_superbuf_ix pkt_id
    let d := ds'.descs g
    let d' := { d with refcnt := superbuf_pkts % 2 ^ 16,
                       superbuf_pkts := superbuf_pkts % 2 ^ 16 }
    some ({ next := (sbseq <<< 32) ||| next',
            prev := prev',
            endId := (pkt_id + superbuf_pkts) % 2 ^ 32 },
          { ds' with descs := updf ds'.descs g d' })

/-- Upper-layer events (`ef_event`), as a sum type. -/
inductive EfEvent where
  | rxRef (pkt_id len q_id filter_id user : Nat)
  | rxRefDiscard (pkt_id len q_id filter_id user flags : Nat)
  | tx (desc_id q_id : Nat)
  | txWithTimestamp (rq_id q_id ts_sec ts_nsec : Nat)
  | txError (q_id subtype desc_id : Nat)
deriving DecidableEq

/-- The packet id carried by an RX event (0 for TX events). -/
def ef_event_pkt_id : EfEvent → Nat
  | .rxRef pkt_id _ _ _ _ => pkt_id
  | .rxRefDiscard pkt_id _ _ _ _ _ => pkt_id
  | _ => 0

/-- `header->u64[0] & CHECK_FIELDS`, where
`CHECK_FIELDS = M(L2_STATUS)|M(L3_STATUS)|M(L4_STATUS)|M(ROLLOVER)`:
nonzero iff one of those four fields is nonzero (they all live in the low
64-bit word, in disjoint bit ranges). -/
def check_fields (h : EfctRxHeader) : Bool :=
  h.l2_status != 0 || h.l3_status != 0 || h.l4_status != 0 || h.rollover != 0

/-- `header_status_flags`: flag accumulation exactly as in the source
(the `header->u64[0] & M(L3_STATUS)` tests become "field nonzero"). -/
def header_status_flags (h : EfctRxHeader) : Nat :=
  let flags : Nat := 0
  let flags := if h.l2_status = EFCT_RX_HEADER_L2_STATUS_FCS_ERR then
    flags ||| EF_VI_DISCARD_RX_ETH_FCS_ERR else flags
  let flags := if h.l2_status = EFCT_RX_HEADER_L2_STATUS_LEN_ERR then
    flags ||| EF_VI_DISCARD_RX_ETH_LEN_ERR else flags
  let flags := if h.l3_class = EFCT_RX_HEADER_L3_CLASS_IP4 ∧ h.l3_status ≠ 0 then
    flags ||| EF_VI_DISCARD_RX_L3_CSUM_ERR else flags
  let flags := if h.l3_class = EFCT_RX_HEADER_L3_CLASS_IP6 ∧ h.l3_status ≠ 0 then
    flags ||| EF_VI_DISCARD_RX_L3_CSUM_ERR else flags
  let flags := if h.l4_class = EFCT_RX_HEADER_L4_CLASS_TCP ∧ h.l4_status ≠ 0 then
    flags ||| EF_VI_DISCARD_RX_L4_CSUM_ERR else flags
  let flags := if h.l4_class = EFCT_RX_HEADER_L4_CLASS_UDP ∧ h.l4_status ≠ 0 then
    flags ||| EF_VI_DISCARD_RX_L4_CSUM_ERR else flags
  let flags := if h.l4_class = EFCT_RX_HEADER_L4_CLASS_OTHER then
    flags ||| EF_VI_DISCARD_RX_L4_CLASS_OTHER else flags
  let flags := if h.l3_class = EFCT_RX_HEADER_L3_CLASS_OTHER then
    flags ||| EF_VI_DISCARD_RX_L3_CLASS_OTHER else flags
  let flags := if h.l2_class = EFCT_RX_HEADER_L2_CLASS_OTHER then
    flags ||| EF_VI_DISCARD_RX_L2_CLASS_OTHER else flags
  flags

/-- The discard-flag derivation table of spec §4.C, written from the
spec's words, for comparison with `header_status_flags`. -/
def spec_discard_flags (h : EfctRxHeader) : Nat :=
  (if h.l2_status = EFCT_RX_HEADER_L2_STATUS_FCS_ERR then
    EF_VI_DISCARD_RX_ETH_FCS_ERR else 0) |||
  (if h.l2_status = EFCT_RX_HEADER_L2_STATUS_LEN_ERR then
    EF_VI_DISCARD_RX_ETH_LEN_ERR else 0) |||
  (if (h.l3_class = EFCT_RX_HEADER_L3_CLASS_IP4 ∨
       h.l3_class = EFCT_RX_HEADER_L3_CLASS_IP6) ∧ h.l3_status ≠ 0 then
    EF_VI_DISCARD_RX_L3_CSUM_ERR else 0) |||
  (if (h.l4_class = EFCT_RX_HEADER_L4_CLASS_TCP ∨
       h.l4_class = EFCT_RX_HEADER_L4_CLASS_UDP) ∧ h.l4_status ≠ 0 then
    EF_VI_DISCARD_RX_L4_CSUM_ERR else 0) |||
  (if h.l4_class = EFCT_RX_HEADER_L4_CLASS_OTHER then
    EF_VI_DISCARD_RX_L4_CLASS_OTHER else 0) |||
  (if h.l3_class = EFCT_RX_HEADER_L3_CLASS_OTHER then
    EF_VI_DISCARD_RX_L3_CLASS_OTHER else 0) |||
  (if h.l2_class = EFCT_RX_HEADER_L2_CLASS_OTHER then
    EF_VI_DISCARD_RX_L2_CLASS_OTHER else 0)

/-- `efct_rx_discard`: fill an `RX_REF_DISCARD` event from the header. -/
def efct_rx_discard (qid pkt_id discard_flags : Nat) (h : EfctRxHeader) :
    EfEvent :=
  .rxRefDiscard pkt_id h.packet_length qid h.filter h.user discard_flags

/-- `efct_rx_next_header`: the header at slot `pkt_id_of(next)` if its
sentinel matches the expected one, else null.  Superbuf memory is the
function `mem` from packet ids to header slots. -/
def efct_rx_next_header (mem : Nat → EfctRxHeader) (next : Nat) :
    Option EfctRxHeader :=
  let h := mem (rxq_ptr_to_pkt_id next)
  if h.sentinel = rxq_ptr_to_sentinel next then some h else none

/-- `efct_rxq_need_rollover`: `pkt_id_of(next) >= end`. -/
def efct_rxq_need_rollover (p : EfctRxqPtr) : Bool :=
  decide (rxq_ptr_to_pkt_id p.next ≥ p.endId)

/-- The inputs `efct_poll_rx` reads from the VI and its collaborators:
superbuf memory, the queue index `qid` and hardware queue id `rxq->qid`,
the discard mask, the live `superbuf_pkts` and `config_generation`
NIC-visible words, and the outcomes of the `ops.next` / `ops.refresh`
calls it may make. -/
structure EfctRxEnv where
  mem : Nat → EfctRxHeader
  qid : Nat
  rxq_qid : Nat
  rx_discard_mask : Nat
  superbuf_pkts : Nat
  live_config_generation : Nat
  next_result : Option (Nat × Bool × Nat)
  refresh_ok : Bool

/-- The per-queue state `efct_poll_rx` mutates. -/
structure EfctRxState where
  ptr : EfctRxqPtr
  ds : RxDescSt
  config_generation : Nat

/-- The metadata-consumption loop of `efct_poll_rx` (the `for` loop after
the rollover/config preamble); `fuel` is the already-clamped `evs_len`. -/
def efct_poll_rx_loop (env : EfctRxEnv) : Nat → EfctRxState →
    List EfEvent × EfctRxState
  | 0, s => ([], s)
  | fuel + 1, s =>
    match efct_rx_next_header env.mem s.ptr.next with
    | none => ([], s)
    | some h =>
      let pkt_id := s.ptr.prev
      let g := pkt_id_to_global_superbuf_ix pkt_id
      let desc := s.ds.descs g
      if check_fields h ∧ (h.rollover ≠ 0 ∨
          (header_status_flags h &&& env.rx_discard_mask) ≠ 0) then
        if h.rollover ≠ 0 then
          let prev_sb := pkt_id_to_local_superbuf_ix pkt_id
          let next_sb := pkt_id_to_local_superbuf_ix
            (rxq_ptr_to_pkt_id s.ptr.next)
          let nf := if next_sb = prev_sb then
              (s.ptr.endId - pkt_id, s.ds.frees)
            else
              (1, s.ds.frees ++ [(env.qid, next_sb)])
          let refcnt' := desc.refcnt - nf.1
          let frees2 := if refcnt' = 0 then nf.2 ++ [(env.qid, prev_sb)]
            else nf.2
          let desc1 := { desc with refcnt := refcnt' }
          ([], { s with
                 ds := { descs := updf s.ds.descs g desc1,
                         frees := frees2 },
                 ptr := { s.ptr with endId := 0 } })
        else
          let ev := efct_rx_discard env.rxq_qid pkt_id
            (header_status_flags h &&& env.rx_discard_mask) h
          let desc2 := { desc with
                         final_timestamp := h.timestamp,
                         final_ts_status := h.timestamp_status }
          let ds' : RxDescSt := { s.ds with descs := updf s.ds.descs g desc2 }
          let ptr' : EfctRxqPtr := { s.ptr with
            prev := rxq_ptr_to_pkt_id s.ptr.next,
            next := (s.ptr.next + 1) % 2 ^ 64 }
          let r := efct_poll_rx_loop env fuel { s with ds := ds', ptr := ptr' }
          (ev :: r.1, r.2)
      else
        let ev : EfEvent := .rxRef pkt_id h.packet_length env.rxq_qid
          h.filter h.user
        let desc2 := { desc with
                       final_timestamp := h.timestamp,
                       final_ts_status := h.timestamp_status }
        let ds' : RxDescSt := { s.ds with descs := updf s.ds.descs g desc2 }
        let ptr' : EfctRxqPtr := { s.ptr with
          prev := rxq_ptr_to_pkt_id s.ptr.next,
          next := (s.ptr.next + 1) % 2 ^ 64 }
        let r := efct_poll_rx_loop env fuel { s with ds := ds', ptr := ptr' }
        (ev :: r.1, r.2)

/-- `efct_poll_rx`: rollover if needed (giving up on failure), refresh
stale configuration (userspace variant: the generation is cached even on
failure, and no events are produced), then consume metadata without
crossing the current superbuf (`evs_len` clamped to
`end - pkt_id_of(next)`). -/
def efct_poll_rx (env : EfctRxEnv) (s : EfctRxState) (evs_len : Nat) :
    List EfEvent × EfctRxState :=
  let after_rollover : Option EfctRxState :=
    if efct_rxq_need_rollover s.ptr then
      match rx_rollover env.qid env.superbuf_pkts env.next_result s.ptr s.ds with
      | none => none
      | some (p', ds') => some { s with ptr := p', ds := ds' }
    else some s
  match after_rollover with
  | none => ([], s)
  | some s1 =>
    if env.live_config_generation ≠ s1.config_generation then
      if env.refresh_ok then
        let s2 := { s1 with config_generation := env.live_config_generation }
        efct_poll_rx_loop env
          (min evs_len (s2.ptr.endId - rxq_ptr_to_pkt_id s2.ptr.next)) s2
      else
        ([], { s1 with config_generation := env.live_config_generation })
    else
      efct_poll_rx_loop env
        (min evs_len (s1.ptr.endId - rxq_ptr_to_pkt_id s1.ptr.next)) s1

/-! ## TX engine (module D) -/

/-- `EFCT_TX_HEADER_BYTES` — modelled from the spec: 8-byte TX header. -/
def EFCT_TX_HEADER_BYTES : Nat := 8

/-- `EFCT_TX_ALIGNMENT` — modelled from the spec: 64-byte TX alignment. -/
def EFCT_TX_ALIGNMENT : Nat := 64

/-- Modelled from the spec: the `CT_THRESH` value disabling cut-through
(the field is 8 bits wide in this model; the exact value is external). -/
def EFCT_TX_CT_DISABLE : Nat := 255

/-- Modelled from the spec: the `EAGAIN` errno value (external header). -/
def EAGAIN : Int := 11

/-- `#define EFCT_TX_POSTED_ID 0xefc7efc7` -/
def EFCT_TX_POSTED_ID : Nat := 0xefc7efc7

/-- `efct_tx_header`: pack the five TX-header fields into a 64-bit word.
The field positions are modelled from the spec (wire format is external):
`PACKET_LENGTH` low 14 bits, then `CT_THRESH` (8), `TIMESTAMP_FLAG` (1),
`WARM_FLAG` (1), `ACTION` (3); `RANGECHCK` masks each field to width. -/
def efct_tx_header (packet_length ct_thresh timestamp_flag warm_flag
    action : Nat) : Nat :=
  (packet_length % 2 ^ 14) |||
  ((ct_thresh % 2 ^ 8) <<< 14) |||
  ((timestamp_flag % 2) <<< 22) |||
  ((warm_flag % 2) <<< 23) |||
  ((action % 2 ^ 3) <<< 24)

/-- `efct_tx_pkt_header`: standard send header, OR'd with the per-VI
fixed header. -/
def efct_tx_pkt_header (fixed_header length ct_thresh : Nat) : Nat :=
  efct_tx_header length ct_thresh 0 0 0 ||| fixed_header

/-- `efct_tx_check`: `ef_vi_transmit_space_bytes(vi) >= len`.  The space
value is computed outside this repository's source (`ef_vi.h`); the core
treats it as a collaborator-provided value, passed in as `space`. -/
def efct_tx_check (space len : Nat) : Bool :=
  decide (space ≥ len)

/-- The TX side of the VI state: the `ef_vi_txq_state` counters, the
descriptor ring and ids array, the event-queue cursor and time-sync
state, plus logs of CTPIO-aperture writes (offset, 64-bit value) and of
unsolicited-credit register writes (clear-overflow flag, GRANT_SEQ). -/
structure EfctTxSt where
  added : Nat
  removed : Nat
  previous : Nat
  ct_added : Nat
  ct_removed : Nat
  desc_len : Nat → Nat
  ids : Nat → Nat
  qmask : Nat
  aperture_mask : Nat
  efct_fixed_header : Nat
  aperture : List (Nat × Nat)
  evq_ptr : Nat
  evq_mask : Nat
  sync_timestamp_major : Nat
  sync_timestamp_minor : Nat
  sync_flags : Nat
  unsol_credit_seq : Nat
  unsol_credit_seq_mask : Nat
  ts_subnano_bits : Nat
  credit_writes : List (Bool × Nat)

/-- `struct efct_tx_state`: transient state of one transmit operation. -/
structure EfctTxOp where
  tail : Nat
  tail_len : Nat
  offset : Nat
  mask : Nat
deriving DecidableEq

/-- `efct_tx_init`: offset in 64-bit words from `ct_added`. -/
def efct_tx_init (v : EfctTxSt) : EfctTxOp :=
  { tail := 0, tail_len := 0, offset := v.ct_added >>> 3,
    mask := v.aperture_mask }

/-- `efct_tx_word`: write a 64-bit word to the CTPIO aperture at
`offset & mask` (logged), advancing the offset. -/
def efct_tx_word (v : EfctTxSt) (tx : EfctTxOp) (value : Nat) :
    EfctTxSt × EfctTxOp :=
  ({ v with aperture := v.aperture ++ [(tx.offset &&& tx.mask,
      value % 2 ^ 64)] },
   { tx with offset := tx.offset + 1 })

/-- `efct_tx_tail_byte`: `tail = (tail << 8) | byte; tail_len++`. -/
def efct_tx_tail_byte (tx : EfctTxOp) (byte : Nat) : EfctTxOp :=
  { tx with tail := ((tx.tail <<< 8) ||| (byte % 2 ^ 8)) % 2 ^ 64,
            tail_len := tx.tail_len + 1 }

/-- `CI_BSWAP_BE64` on a little-endian host: byte swap of a 64-bit word. -/
def bswap64 (x : Nat) : Nat :=
  ((x >>> 56) &&& 0xff) ||| (((x >>> 48) &&& 0xff) <<< 8) |||
  (((x >>> 40) &&& 0xff) <<< 16) ||| (((x >>> 32) &&& 0xff) <<< 24) |||
  (((x >>> 24) &&& 0xff) <<< 32) ||| (((x >>> 16) &&& 0xff) <<< 40) |||
  (((x >>> 8) &&& 0xff) <<< 48) ||| ((x &&& 0xff) <<< 56)

/-- The first loop of `efct_tx_block`: append bytes into the tail buffer
while bytes remain and `tail_len < 8`; returns the op and leftover. -/
def tx_fill_tail : EfctTxOp → List Nat → EfctTxOp × List Nat
  | tx, [] => (tx, [])
  | tx, b :: rest =>
    if tx.tail_len < 8 then tx_fill_tail (efct_tx_tail_byte tx b) rest
    else (tx, b :: rest)

/-- The second loop of `efct_tx_block`: while at least 8 bytes remain,
emit them as a native-endian (little, on x86) 64-bit word. -/
def tx_words (v : EfctTxSt) (tx : EfctTxOp) :
    List Nat → EfctTxSt × EfctTxOp × List Nat
  | b0 :: b1 :: b2 :: b3 :: b4 :: b5 :: b6 :: b7 :: rest =>
    let w := (b0 % 256) + (b1 % 256) * 2 ^ 8 + (b2 % 256) * 2 ^ 16 +
      (b3 % 256) * 2 ^ 24 + (b4 % 256) * 2 ^ 32 + (b5 % 256) * 2 ^ 40 +
      (b6 % 256) * 2 ^ 48 + (b7 % 256) * 2 ^ 56
    let p := efct_tx_word v tx w
    tx_words p.1 p.2 rest
  | bytes => (v, tx, bytes)

/-- `efct_tx_block`: tail fill (with a big-endian-swapped flush when the
tail buffer reaches 8 bytes), whole 64-bit words, then leftover bytes
into the tail buffer. -/
def efct_tx_block (v : EfctTxSt) (tx : EfctTxOp) (bytes : List Nat) :
    EfctTxSt × EfctTxOp :=
  let ftb := if tx.tail_len ≠ 0 then tx_fill_tail tx bytes else (tx, bytes)
  let vt :=
    if ftb.1.tail_len = 8 then
      let p := efct_tx_word v ftb.1 (bswap64 ftb.1.tail)
      (p.1, { p.2 with tail := 0, tail_len := 0 })
    else (v, ftb.1)
  let w := tx_words vt.1 vt.2 ftb.2
  (w.1, w.2.2.foldl efct_tx_tail_byte w.2.1)

/-- `efct_tx_complete`: flush the left-shifted tail, pad with zero words
to 64-byte alignment (the `sfence` orders device-visible stores and has no
architectural state), then write the ring descriptor and bump the
counters: `desc[added & mask].len = roundup(len + 8, 64)` (a `uint16_t`),
`ids[added & mask] = dma_id`, `ct_added += len`, `added += 1`. -/
def efct_tx_complete (v : EfctTxSt) (tx : EfctTxOp) (dma_id len : Nat) :
    EfctTxSt × EfctTxOp :=
  let i := v.added &&& v.qmask
  let vt1 :=
    if tx.tail_len ≠ 0 then
      let tx' := { tx with
        tail := (tx.tail <<< ((8 - tx.tail_len) * 8)) % 2 ^ 64 }
      efct_tx_word v tx' (bswap64 tx'.tail)
    else (v, tx)
  let pad := (8 - vt1.2.offset % 8) % 8
  let vt2 := (List.range pad).foldl
    (fun q _ => efct_tx_word q.1 q.2 0) vt1
  let len64 := ((len + EFCT_TX_HEADER_BYTES + EFCT_TX_ALIGNMENT - 1) /
    EFCT_TX_ALIGNMENT) * EFCT_TX_ALIGNMENT
  ({ vt2.1 with
     desc_len := updf vt2.1.desc_len i (len64 % 2 ^ 16),
     ids := updf vt2.1.ids i (dma_id % 2 ^ 32),
     ct_added := (vt2.1.ct_added + len64) % 2 ^ 32,
     added := (vt2.1.added + 1) % 2 ^ 32 },
   vt2.2)

/-- `efct_ef_vi_transmit`: check space (else `-EAGAIN`, nothing written),
then header word, payload block, and completion.  The payload is the list
of bytes at `base`; `len` is its length. -/
def efct_ef_vi_transmit (v : EfctTxSt) (space : Nat) (base : List Nat)
    (dma_id : Nat) : Int × EfctTxSt :=
  if ¬ efct_tx_check space base.length then (-EAGAIN, v)
  else
    let tx := efct_tx_init v
    let p1 := efct_tx_word v tx (efct_tx_pkt_header v.efct_fixed_header
      base.length EFCT_TX_CT_DISABLE)
    let p2 := efct_tx_block p1.1 p1.2 base
    let p3 := efct_tx_complete p2.1 p2.2 dma_id base.length
    (0, p3.1)

/-- `efct_ef_vi_transmitv`: sum the iov lengths, admit once (note the
transient `tx_state` is built before the check, but no VI state has been
touched when the check fails), then stream each fragment. -/
def efct_ef_vi_transmitv (v : EfctTxSt) (space : Nat)
    (iov : List (List Nat)) (dma_id : Nat) : Int × EfctTxSt :=
  let tx := efct_tx_init v
  let len := (iov.map List.length).sum
  if ¬ efct_tx_check space len then (-EAGAIN, v)
  else
    let p1 := efct_tx_word v tx (efct_tx_pkt_header v.efct_fixed_header
      len EFCT_TX_CT_DISABLE)
    let p2 := iov.foldl (fun q frag => efct_tx_block q.1 q.2 frag) p1
    let p3 := efct_tx_complete p2.1 p2.2 dma_id len
    (0, p3.1)

/-! ## TX event consumption -/

/-- Modelled from the spec: `EVENT_TYPE` value for TX events. -/
def EFCT_EVENT_TYPE_TX : Nat := 0

/-- Modelled from the spec: `EVENT_TYPE` value for control events. -/
def EFCT_EVENT_TYPE_CONTROL : Nat := 1

/-- Modelled from the spec: control subtype ERROR. -/
def EFCT_CTRL_EV_ERROR : Nat := 0

/-- Modelled from the spec: control subtype FLUSH. -/
def EFCT_CTRL_EV_FLUSH : Nat := 1

/-- Modelled from the spec: control subtype TIME_SYNC. -/
def EFCT_CTRL_EV_TIME_SYNC : Nat := 2

/-- Modelled from the spec: control subtype UNSOL_OVERFLOW. -/
def EFCT_CTRL_EV_UNSOL_OVERFLOW : Nat := 3

/-- Modelled from the spec: width of the TX event `SEQUENCE` field. -/
def EFCT_TX_EVENT_SEQUENCE_WIDTH : Nat := 8

/-- Modelled from the spec: the two low ts_nsec bits carry sync flags. -/
def EF_EVENT_TX_WITH_TIMESTAMP_SYNC_MASK : Nat := 3

/-- Modelled from the spec: clock-is-set sync flag. -/
def EF_VI_SYNC_FLAG_CLOCK_SET : Nat := 1

/-- Modelled from the spec: clock-in-sync sync flag. -/
def EF_VI_SYNC_FLAG_CLOCK_IN_SYNC : Nat := 2

/-- Modelled from the spec: unsolicited-credit event-queue capacity. -/
def CI_CFG_TIME_SYNC_EVENT_EVQ_CAPACITY : Nat := 128

/-- A 64-bit event word, as a record of its fields (bit positions are in
external headers; the phase bit, TYPE, and per-type fields per spec §6). -/
structure EfctEvWord where
  phase : Nat
  etype : Nat
  sequence : Nat
  label : Nat
  timestamp_status : Nat
  ptstamp : Nat
  subtype : Nat
  error_label : Nat
  error_reason : Nat
  time_high : Nat
  clock_in_sync : Nat
  clock_is_set : Nat
deriving DecidableEq

/-- `efct_tx_get_event`: the event at `evq_ptr & evq_mask`, valid iff its
phase bit matches `(evq_ptr & (evq_mask + 1)) != 0`. -/
def efct_tx_get_event (mem : Nat → EfctEvWord) (evq_mask evq_ptr : Nat) :
    Option EfctEvWord :=
  let event := mem (evq_ptr &&& evq_mask)
  let expect_phase := if evq_ptr &&& (evq_mask + 1) ≠ 0 then 1 else 0
  if event.phase = expect_phase then some event else none

/-- `efct_tx_handle_event`: advance `previous` (adding each passed
descriptor's `len` to `ct_removed`) until `previous & seq_mask` equals
`(seq + 1) & seq_mask` — the C `while` loop runs exactly the modular
distance, here computed in closed form — then emit either a plain TX
event or, on `TIMESTAMP_STATUS`, a TX_WITH_TIMESTAMP event (which also
counts as removal). -/
def efct_tx_handle_event (v : EfctTxSt) (e : EfctEvWord) :
    EfctTxSt × EfEvent :=
  let seq_mask := (1 <<< EFCT_TX_EVENT_SEQUENCE_WIDTH) - 1
  let target := ((e.sequence &&& seq_mask) + 1) &&& seq_mask
  let k := (target + (seq_mask + 1) - (v.previous &&& seq_mask)) %
    (seq_mask + 1)
  let v1 := (List.range k).foldl (fun w _ =>
    { w with
      ct_removed := (w.ct_removed + w.desc_len (w.previous &&& w.qmask)) %
        2 ^ 32,
      previous := (w.previous + 1) % 2 ^ 32 }) v
  if e.timestamp_status ≠ 0 then
    let ptstamp_seconds := (e.ptstamp >>> 32) % 2 ^ 32
    let timesync_seconds := v1.sync_timestamp_major &&& 0xFF
    let ts_sec := if ptstamp_seconds = (timesync_seconds + 1) % 256 then
        (v1.sync_timestamp_major + 1) % 2 ^ 32
      else v1.sync_timestamp_major
    let ts_nsec :=
      ((((e.ptstamp &&& 0xFFFFFFFF) >>> v1.ts_subnano_bits) &&&
        (0xFFFFFFFF - EF_EVENT_TX_WITH_TIMESTAMP_SYNC_MASK)) |||
       v1.sync_flags)
    let rq_id := v1.ids (((v1.previous + 2 ^ 32 - 1) % 2 ^ 32) &&& v1.qmask)
    ({ v1 with removed := (v1.removed + 1) % 2 ^ 32 },
     .txWithTimestamp rq_id e.label ts_sec ts_nsec)
  else
    (v1, .tx v1.previous e.label)

/-- `efct_tx_handle_error_event`: emit TX_ERROR with the event's LABEL
and REASON; `desc_id = ++qs->previous`. -/
def efct_tx_handle_error_event (v : EfctTxSt) (e : EfctEvWord) :
    EfctTxSt × EfEvent :=
  let prev' := (v.previous + 1) % 2 ^ 32
  ({ v with previous := prev' },
   .txError e.error_label e.error_reason prev')

/-- `efct_grant_unsol_credit`: one masked write to the unsolicited-credit
register, logged as (clear_overflow, GRANT_SEQ). -/
def efct_grant_unsol_credit (v : EfctTxSt) (clear_overflow : Bool)
    (credit_seq : Nat) : EfctTxSt :=
  { v with credit_writes := v.credit_writes ++
      [(clear_overflow, credit_seq &&& v.unsol_credit_seq_mask)] }

/-- `efct_tx_handle_control_event`: subtype dispatch, returning the
emitted events (`n_evs` many). -/
def efct_tx_handle_control_event (v : EfctTxSt) (e : EfctEvWord) :
    EfctTxSt × List EfEvent :=
  if e.subtype = EFCT_CTRL_EV_ERROR then
    let p := efct_tx_handle_error_event v e
    (p.1, [p.2])
  else if e.subtype = EFCT_CTRL_EV_FLUSH then
    (v, [])
  else if e.subtype = EFCT_CTRL_EV_TIME_SYNC then
    let v1 := { v with
      sync_timestamp_major := (e.time_high >>> 16) % 2 ^ 32,
      sync_timestamp_minor := e.time_high &&& 0xFFFF,
      sync_flags :=
        (if e.clock_in_sync ≠ 0 then EF_VI_SYNC_FLAG_CLOCK_IN_SYNC else 0) |||
        (if e.clock_is_set ≠ 0 then EF_VI_SYNC_FLAG_CLOCK_SET else 0),
      unsol_credit_seq := (v.unsol_credit_seq + 1) % 2 ^ 32 }
    (efct_grant_unsol_credit v1 false v1.unsol_credit_seq, [])
  else if e.subtype = EFCT_CTRL_EV_UNSOL_OVERFLOW then
    let v1 := { v with
      unsol_credit_seq := CI_CFG_TIME_SYNC_EVENT_EVQ_CAPACITY - 1 }
    (efct_grant_unsol_credit v1 true v1.unsol_credit_seq, [])
  else
    (v, [])

/-- `efct_poll_tx`: consume valid-phase events while capacity remains.
`cap` is `evs_len - n_evs`; `fuel` bounds the number of loop iterations
(the C loop is bounded only by the phase protocol, so the embedding takes
an explicit iteration budget — every theorem holds for all budgets). -/
def efct_poll_tx (mem : Nat → EfctEvWord) :
    Nat → EfctTxSt → Nat → List EfEvent × EfctTxSt
  | 0, v, _ => ([], v)
  | fuel + 1, v, cap =>
    if cap = 0 then ([], v)
    else
      match efct_tx_get_event mem v.evq_mask v.evq_ptr with
      | none => ([], v)
      | some e =>
        let v1 := { v with evq_ptr := (v.evq_ptr + 8) % 2 ^ 32 }
        if e.etype = EFCT_EVENT_TYPE_TX then
          let p := efct_tx_handle_event v1 e
          ([p.2], p.1)
        else if e.etype = EFCT_EVENT_TYPE_CONTROL then
          let p := efct_tx_handle_control_event v1 e
          let r := efct_poll_tx mem fuel p.1 (cap - p.2.length)
          (p.2 ++ r.1, r.2)
        else
          efct_poll_tx mem fuel v1 cap

/-- Is an upper-layer event a TX completion (TX or TX_WITH_TIMESTAMP)? -/
def isTxEvent : EfEvent → Bool
  | .tx _ _ => true
  | .txWithTimestamp _ _ _ _ => true
  | _ => false

/-! ## Discard-mask accessors (module F surface) -/

/-- The discard-mask part of the VI state. -/
structure EfViRx where
  rx_discard_mask : Nat
deriving DecidableEq

/-- `efct_ef_vi_receive_set_discards`: keep only the seven supported
flags, store, return 0. -/
def efct_ef_vi_receive_set_discards (vi : EfViRx)
    (discard_err_flags : Nat) : Int × EfViRx :=
  let flags := discard_err_flags &&&
    (EF_VI_DISCARD_RX_L4_CSUM_ERR |||
     EF_VI_DISCARD_RX_L3_CSUM_ERR |||
     EF_VI_DISCARD_RX_ETH_FCS_ERR |||
     EF_VI_DISCARD_RX_ETH_LEN_ERR |||
     EF_VI_DISCARD_RX_L2_CLASS_OTHER |||
     EF_VI_DISCARD_RX_L3_CLASS_OTHER |||
     EF_VI_DISCARD_RX_L4_CLASS_OTHER)
  (0, { vi with rx_discard_mask := flags })

/-- `efct_ef_vi_receive_get_discards`. -/
def efct_ef_vi_receive_get_discards (vi : EfViRx) : Nat :=
  vi.rx_discard_mask

/-- A concrete TX-side VI state (8-slot ring, 64 KiB aperture, empty
logs), used by concrete instantiations. -/
def sampleTxSt : EfctTxSt :=
  { added := 0, removed := 0, previous := 0, ct_added := 0, ct_removed := 0,
    desc_len := fun _ => 0, ids := fun _ => 0, qmask := 7,
    aperture_mask := 8191, efct_fixed_header := 0, aperture := [],
    evq_ptr := 0, evq_mask := 255, sync_timestamp_major := 0,
    sync_timestamp_minor := 0, sync_flags := 0, unsol_credit_seq := 0,
    unsol_credit_seq_mask := 127, ts_subnano_bits := 2,
    credit_writes := [] }

/-- A concrete transient TX op matching `sampleTxSt`. -/
def sampleTxOp : EfctTxOp :=
  { tail := 0, tail_len := 0, offset := 0, mask := 8191 }

/-! ## Theorems -/

theorem lor_mul_two_pow_add (a b k : Nat) (h : b < 2 ^ k) :
    (2 ^ k * a) ||| b = 2 ^ k * a + b := by
  apply Nat.eq_of_testBit_eq
  intro j
  rw [Nat.testBit_lor, Nat.testBit_mul_pow_two_add a h j]
  have hz : 2 ^ k * a = 2 ^ k * a + 0 := rfl
  by_cases hj : j < k
  · have : (2 ^ k * a).testBit j = false := by
      rw [hz, Nat.testBit_mul_pow_two_add a (Nat.two_pow_pos k) j]
      simp [hj]
    simp [this, hj]
  · have : (2 ^ k * a).testBit j = a.testBit (j - k) := by
      rw [hz, Nat.testBit_mul_pow_two_add a (Nat.two_pow_pos k) j]
      simp [hj]
    have hb : b.testBit j = false :=
      Nat.testBit_lt_two_pow (Nat.lt_of_lt_of_le h
        (Nat.pow_le_pow_right (by norm_num) (Nat.le_of_not_lt hj)))
    simp [this, hb, hj]

theorem encode_pkt_id_eq (rxq sb pkt : Nat) (hp : pkt < 2 ^ 16) :
    encode_pkt_id rxq sb pkt = (rxq * 2048 + sb) * 2 ^ 16 + pkt := by
  unfold encode_pkt_id CI_EFCT_MAX_SUPERBUFS PKT_ID_PKT_BITS
  rw [Nat.shiftLeft_eq, Nat.mul_comm (rxq * 2048 + sb) (2 ^ 16),
    lor_mul_two_pow_add _ _ _ hp, Nat.mul_comm]

/-- Claim C1: packet-ID codec round-trip.  For every rxq index in `[0,8)`,
local superbuf index in `[0,2048)` and packet index in `[0,65536)`,
decoding the encoded 32-bit packet id `((rxq*2048+sb) << 16) | pkt` with
`pkt_id_to_rxq_ix`, `pkt_id_to_local_superbuf_ix` and
`pkt_id_to_index_in_superbuf` returns exactly `(rxq, sb, pkt)`, and
superimposing the sentinel bit preserves the packet id:
`rxq_ptr_to_pkt_id (x | 1 << 31) = x`. -/
theorem pkt_id_codec_round_trip (rxq sb pkt : Nat)
    (hr : rxq < 8) (hs : sb < 2048) (hp : pkt < 65536) :
    pkt_id_to_rxq_ix (encode_pkt_id rxq sb pkt) = rxq ∧
    pkt_id_to_local_superbuf_ix (encode_pkt_id rxq sb pkt) = sb ∧
    pkt_id_to_index_in_superbuf (encode_pkt_id rxq sb pkt) = pkt ∧
    rxq_ptr_to_pkt_id (encode_pkt_id rxq sb pkt ||| (1 <<< 31)) =
      encode_pkt_id rxq sb pkt := by
  have hp' : pkt < 2 ^ 16 := by norm_num at hp ⊢; omega
  have he := encode_pkt_id_eq rxq sb pkt hp'
  have hg : pkt_id_to_global_superbuf_ix (encode_pkt_id rxq sb pkt) =
      rxq * 2048 + sb := by
    unfold pkt_id_to_global_superbuf_ix PKT_ID_PKT_BITS
    rw [he, Nat.shiftRight_eq_div_pow]
    omega
  refine ⟨?_, ?_, ?_, ?_⟩
  · unfold pkt_id_to_rxq_ix CI_EFCT_MAX_SUPERBUFS
    rw [hg]; omega
  · unfold pkt_id_to_local_superbuf_ix CI_EFCT_MAX_SUPERBUFS
    rw [hg]
    have h2 : (2047 : Nat) = 2 ^ 11 - 1 := by norm_num
    rw [show (2048 : Nat) - 1 = 2 ^ 11 - 1 by norm_num,
      Nat.and_pow_two_sub_one_eq_mod]
    omega
  · unfold pkt_id_to_index_in_superbuf PKT_ID_PKT_BITS
    rw [he, show (1 <<< 16 - 1 : Nat) = 2 ^ 16 - 1 by decide,
      Nat.and_pow_two_sub_one_eq_mod]
    omega
  · have hlt : encode_pkt_id rxq sb pkt < 2 ^ 31 := by rw [he]; omega
    have : encode_pkt_id rxq sb pkt ||| (1 <<< 31) =
        2 ^ 31 * 1 + encode_pkt_id rxq sb pkt := by
      rw [Nat.lor_comm, show (1 <<< 31 : Nat) = 2 ^ 31 * 1 by decide]
      exact lor_mul_two_pow_add 1 _ 31 hlt
    rw [this]
    unfold rxq_ptr_to_pkt_id
    rw [show (0x7fffffff : Nat) = 2 ^ 31 - 1 by norm_num,
      Nat.and_pow_two_sub_one_eq_mod]
    omega

/-- Witness for C1 at `(rxq, sb, pkt) = (3, 5, 7)`. -/
theorem pkt_id_codec_round_trip_witness :
    (3 : Nat) < 8 ∧ (5 : Nat) < 2048 ∧ (7 : Nat) < 65536 ∧
    (pkt_id_to_rxq_ix (encode_pkt_id 3 5 7) = 3 ∧
     pkt_id_to_local_superbuf_ix (encode_pkt_id 3 5 7) = 5 ∧
     pkt_id_to_index_in_superbuf (encode_pkt_id 3 5 7) = 7 ∧
     rxq_ptr_to_pkt_id (encode_pkt_id 3 5 7 ||| (1 <<< 31)) =
       encode_pkt_id 3 5 7) :=
  ⟨by decide, by decide, by decide,
   pkt_id_codec_round_trip 3 5 7 (by decide) (by decide) (by decide)⟩

theorem pkt_id_rxq_local_of_global (q g : Nat)
    (hq : pkt_id_to_global_superbuf_ix q = g) :
    pkt_id_to_rxq_ix q = g / CI_EFCT_MAX_SUPERBUFS ∧
    pkt_id_to_local_superbuf_ix q = g % CI_EFCT_MAX_SUPERBUFS := by
  unfold pkt_id_to_rxq_ix pkt_id_to_local_superbuf_ix CI_EFCT_MAX_SUPERBUFS
  rw [hq]
  refine ⟨rfl, ?_⟩
  rw [show (2048 : Nat) - 1 = 2 ^ 11 - 1 by norm_num,
    Nat.and_pow_two_sub_one_eq_mod]

theorem efct_vi_rxpkt_release_step (s : RxDescSt) (q : Nat)
    (hpos : 0 < (s.descs (pkt_id_to_global_superbuf_ix q)).refcnt)
    (hlt : (s.descs (pkt_id_to_global_superbuf_ix q)).refcnt < 2 ^ 16) :
    (efct_vi_rxpkt_release s q).descs =
      updf s.descs (pkt_id_to_global_superbuf_ix q)
        { s.descs (pkt_id_to_global_superbuf_ix q) with
          refcnt := (s.descs (pkt_id_to_global_superbuf_ix q)).refcnt - 1 } ∧
    (efct_vi_rxpkt_release s q).frees =
      (if (s.descs (pkt_id_to_global_superbuf_ix q)).refcnt = 1 then
        s.frees ++ [(pkt_id_to_rxq_ix q, pkt_id_to_local_superbuf_ix q)]
      else s.frees) := by
  unfold efct_vi_rxpkt_release
  have hmod : ((s.descs (pkt_id_to_global_superbuf_ix q)).refcnt + 2 ^ 16 - 1) % 2 ^ 16
      = (s.descs (pkt_id_to_global_superbuf_ix q)).refcnt - 1 := by omega
  simp only [hmod]
  constructor
  · split <;> rfl
  · split
    · next h => simp [show (s.descs (pkt_id_to_global_superbuf_ix q)).refcnt = 1 by omega]
    · next h => simp [show (s.descs (pkt_id_to_global_superbuf_ix q)).refcnt ≠ 1 by omega]

theorem rxpkt_release_list_spec (l : List Nat) (s : RxDescSt) (g : Nat)
    (hall : ∀ q ∈ l, pkt_id_to_global_superbuf_ix q = g)
    (hpos : 0 < (s.descs g).refcnt)
    (hlen : l.length ≤ (s.descs g).refcnt)
    (hlt : (s.descs g).refcnt < 2 ^ 16) :
    ((rxpkt_release_list s l).descs g).refcnt = (s.descs g).refcnt - l.length ∧
    (rxpkt_release_list s l).frees = s.frees ++
      (if l.length = (s.descs g).refcnt then
        [(g / CI_EFCT_MAX_SUPERBUFS, g % CI_EFCT_MAX_SUPERBUFS)] else []) := by
  induction l generalizing s with
  | nil =>
    refine ⟨by simp [rxpkt_release_list], ?_⟩
    rw [rxpkt_release_list, List.foldl_nil, if_neg (by simp; omega),
      List.append_nil]
  | cons q t ih =>
    have hq : pkt_id_to_global_superbuf_ix q = g := hall q (by simp)
    have hstep := efct_vi_rxpkt_release_step s q (by rw [hq]; exact hpos)
      (by rw [hq]; exact hlt)
    have hlist : rxpkt_release_list s (q :: t) =
        rxpkt_release_list (efct_vi_rxpkt_release s q) t := by
      rw [rxpkt_release_list, rxpkt_release_list, List.foldl_cons]
    have hdesc : ((efct_vi_rxpkt_release s q).descs g).refcnt =
        (s.descs g).refcnt - 1 := by
      rw [hstep.1, hq]; simp [updf]
    have hrl := pkt_id_rxq_local_of_global q g hq
    by_cases h1 : (s.descs g).refcnt = 1
    · have ht0 : t = [] := List.length_eq_zero.mp (by simp at hlen; omega)
      subst ht0
      refine ⟨?_, ?_⟩
      · rw [hlist, rxpkt_release_list, List.foldl_nil, hdesc]
        simp only [List.length_cons, List.length_nil]
      · rw [hlist, rxpkt_release_list, List.foldl_nil, hstep.2, hrl.1, hrl.2,
          hq, if_pos h1, if_pos (by simp [h1])]
    · rcases ih (efct_vi_rxpkt_release s q)
        (fun r hr => hall r (by simp [hr]))
        (by rw [hdesc]; omega)
        (by rw [hdesc]; simp at hlen ⊢; omega)
        (by rw [hdesc]; omega) with ⟨ihd, ihf⟩
      refine ⟨?_, ?_⟩
      · rw [hlist, ihd, hdesc]
        simp only [List.length_cons]
        omega
      · rw [hlist, ihf, hdesc, hstep.2, hrl.1, hrl.2, hq, if_neg h1]
        by_cases h2 : t.length = (s.descs g).refcnt - 1
        · rw [if_pos h2, if_pos (by simp only [List.length_cons]; omega)]
        · rw [if_neg h2, if_neg (by simp only [List.length_cons]; omega)]

/-- Claim C2: superbuf refcount conservation.  For a packet id whose
superbuf descriptor has `refcnt > 0`, `efct_vi_rxpkt_release` decrements
that refcount by exactly one, and calls `ops.free` for that
`(rxq, local superbuf)` if and only if the refcount reaches zero; and for
any refcount value (such as the rollover preload `superbuf_pkts`), a
sequence of `k ≤ refcnt` releases of packets of that superbuf emits the
single `ops.free` call exactly when `k = refcnt`, i.e. on the release that
brings the refcount to zero. -/
theorem rxpkt_release_refcnt_conservation (s : RxDescSt) (p : Nat)
    (hpos : 0 < (s.descs (pkt_id_to_global_superbuf_ix p)).refcnt)
    (hlt : (s.descs (pkt_id_to_global_superbuf_ix p)).refcnt < 2 ^ 16) :
    ((efct_vi_rxpkt_release s p).descs (pkt_id_to_global_superbuf_ix p)).refcnt
        = (s.descs (pkt_id_to_global_superbuf_ix p)).refcnt - 1 ∧
    ((efct_vi_rxpkt_release s p).frees =
      if (s.descs (pkt_id_to_global_superbuf_ix p)).refcnt = 1 then
        s.frees ++ [(pkt_id_to_rxq_ix p, pkt_id_to_local_superbuf_ix p)]
      else s.frees) ∧
    (∀ l : List Nat,
      (∀ q ∈ l, pkt_id_to_global_superbuf_ix q =
        pkt_id_to_global_superbuf_ix p) →
      l.length ≤ (s.descs (pkt_id_to_global_superbuf_ix p)).refcnt →
      (rxpkt_release_list s l).frees = s.frees ++
        (if l.length = (s.descs (pkt_id_to_global_superbuf_ix p)).refcnt then
          [(pkt_id_to_rxq_ix p, pkt_id_to_local_superbuf_ix p)] else [])) := by
  have hstep := efct_vi_rxpkt_release_step s p hpos hlt
  have hrl := pkt_id_rxq_local_of_global p _ rfl
  refine ⟨?_, hstep.2, ?_⟩
  · rw [hstep.1]; simp [updf]
  · intro l hall hlen
    have := (rxpkt_release_list_spec l s (pkt_id_to_global_superbuf_ix p)
      hall hpos hlen hlt).2
    rw [this, hrl.1, hrl.2]

/-- Witness for C2: a descriptor with refcount 2 and two releases of
packets 0x30001 and 0x30002 (same superbuf, global index 3). -/
theorem rxpkt_release_refcnt_conservation_witness :
    (0 : Nat) <
      (({ descs := fun _ => ⟨2, 2, 0, 0, 0⟩, frees := [] } : RxDescSt).descs
        (pkt_id_to_global_superbuf_ix 0x30001)).refcnt ∧
    ((rxpkt_release_list { descs := fun _ => ⟨2, 2, 0, 0, 0⟩, frees := [] }
        [0x30001, 0x30002]).frees =
      [(pkt_id_to_rxq_ix 0x30001, pkt_id_to_local_superbuf_ix 0x30001)]) := by
  refine ⟨by decide, ?_⟩
  have h := (rxpkt_release_refcnt_conservation
    { descs := fun _ => ⟨2, 2, 0, 0, 0⟩, frees := [] } 0x30001
    (by decide) (by decide)).2.2 [0x30001, 0x30002] (by decide) (by decide)
  simpa using h

theorem lor_two_pow_32_add (sbseq n : Nat) (h : n < 2 ^ 32) :
    (sbseq <<< 32) ||| n = 2 ^ 32 * sbseq + n := by
  rw [Nat.shiftLeft_eq, Nat.mul_comm sbseq (2 ^ 32), lor_mul_two_pow_add _ _ _ h]

/-- Claim C3: first-rollover behaviour of `rx_rollover`.  On a queue with
`end == 0`, when `ops.next` succeeds returning local superbuf `rc` with
sentinel `s` and sequence `sbseq`, then with `pkt_id = (qid*2048+rc) << 16`
the function sets `prev = pkt_id`, sets `next` to
`(sbseq << 32) | ((pkt_id | (s << 31)) + 1)` — i.e. advanced past the
first packet slot, so its low 31-bit packet-id part is `pkt_id + 1` —
sets `end = pkt_id + superbuf_pkts`, and preloads the descriptor's
`refcnt` and `superbuf_pkts` fields with `superbuf_pkts`. -/
theorem rx_rollover_first_rollover (qid rc spkts sbseq : Nat) (sentinel : Bool)
    (p : EfctRxqPtr) (ds : RxDescSt)
    (hq : qid < 8) (hrc : rc < 2048)
    (hsp : 0 < spkts) (hsp16 : spkts < 2 ^ 16)
    (hend : p.endId = 0) :
    rx_rollover qid spkts (some (rc, sentinel, sbseq)) p ds =
      some ({ next := (sbseq <<< 32) |||
                ((((qid * 2048 + rc) <<< 16) |||
                  ((if sentinel then 1 else 0) <<< 31)) + 1),
              prev := (qid * 2048 + rc) <<< 16,
              endId := ((qid * 2048 + rc) <<< 16) + spkts },
            { descs := updf ds.descs (qid * 2048 + rc)
                ({ ds.descs (qid * 2048 + rc) with
                   refcnt := spkts, superbuf_pkts := spkts }),
              frees := ds.frees }) ∧
    rxq_ptr_to_pkt_id ((sbseq <<< 32) |||
        ((((qid * 2048 + rc) <<< 16) |||
          ((if sentinel then 1 else 0) <<< 31)) + 1)) =
      ((qid * 2048 + rc) <<< 16) + 1 := by
  have hpx : (qid * 2048 + rc) <<< 16 = (qid * 2048 + rc) * 2 ^ 16 :=
    Nat.shiftLeft_eq _ _
  have hpxlt : (qid * 2048 + rc) * 2 ^ 16 < 2 ^ 30 := by omega
  have hs : (if sentinel then (1 : Nat) else 0) ≤ 1 := by
    cases sentinel <;> simp
  have hsb31 : ((if sentinel then (1 : Nat) else 0) <<< 31) =
      2 ^ 31 * (if sentinel then 1 else 0) := by
    rw [Nat.shiftLeft_eq, Nat.mul_comm]
  have hor : (((qid * 2048 + rc) <<< 16) |||
      ((if sentinel then (1 : Nat) else 0) <<< 31)) =
      2 ^ 31 * (if sentinel then 1 else 0) + (qid * 2048 + rc) * 2 ^ 16 := by
    rw [hpx, hsb31, Nat.lor_comm, lor_mul_two_pow_add _ _ _ (by omega)]
  have hmod32 : ((qid * 2048 + rc) <<< 16) % 2 ^ 32 = (qid * 2048 + rc) <<< 16 :=
    Nat.mod_eq_of_lt (by omega)
  have hgix : pkt_id_to_global_superbuf_ix ((qid * 2048 + rc) <<< 16) =
      qid * 2048 + rc := by
    unfold pkt_id_to_global_superbuf_ix PKT_ID_PKT_BITS
    rw [hpx, Nat.shiftRight_eq_div_pow]
    omega
  have hmodn : ((((qid * 2048 + rc) <<< 16) |||
      ((if sentinel then (1 : Nat) else 0) <<< 31)) + 1) % 2 ^ 32 =
      (((qid * 2048 + rc) <<< 16) |||
      ((if sentinel then (1 : Nat) else 0) <<< 31)) + 1 :=
    Nat.mod_eq_of_lt (by rw [hor]; omega)
  have hmodend : (((qid * 2048 + rc) <<< 16) + spkts) % 2 ^ 32 =
      ((qid * 2048 + rc) <<< 16) + spkts :=
    Nat.mod_eq_of_lt (by rw [hpx]; omega)
  constructor
  · unfold rx_rollover
    simp only [CI_EFCT_MAX_SUPERBUFS, PKT_ID_PKT_BITS, hmod32, hend,
      if_pos, hmodn, hgix, hmodend, Nat.mod_eq_of_lt hsp16]
  · rw [lor_two_pow_32_add _ _ (by rw [hor]; omega)]
    unfold rxq_ptr_to_pkt_id
    rw [show (0x7fffffff : Nat) = 2 ^ 31 - 1 by norm_num,
      Nat.and_pow_two_sub_one_eq_mod, hor]
    omega

/-- Witness for C3 at `qid = 1`, `rc = 2`, `spkts = 512`, `sbseq = 9`,
sentinel true, on a fresh queue (`end = 0`). -/
theorem rx_rollover_first_rollover_witness :
    (({ next := 0, prev := 0, endId := 0 } : EfctRxqPtr).endId = 0) ∧
    (rx_rollover 1 512 (some (2, true, 9)) { next := 0, prev := 0, endId := 0 }
        { descs := fun _ => ⟨0, 0, 0, 0, 0⟩, frees := [] } =
      some ({ next := (9 <<< 32) |||
                ((((1 * 2048 + 2) <<< 16) ||| (1 <<< 31)) + 1),
              prev := (1 * 2048 + 2) <<< 16,
              endId := ((1 * 2048 + 2) <<< 16) + 512 },
            { descs := updf (fun _ => ⟨0, 0, 0, 0, 0⟩) (1 * 2048 + 2)
                ({ (⟨0, 0, 0, 0, 0⟩ : EfctRxDesc) with
                   refcnt := 512, superbuf_pkts := 512 }),
              frees := [] })) ∧
    rxq_ptr_to_pkt_id ((9 <<< 32) |||
        ((((1 * 2048 + 2) <<< 16) ||| (1 <<< 31)) + 1)) =
      ((1 * 2048 + 2) <<< 16) + 1 := by
  have h := rx_rollover_first_rollover 1 2 512 9 true
    { next := 0, prev := 0, endId := 0 }
    { descs := fun _ => ⟨0, 0, 0, 0, 0⟩, frees := [] }
    (by decide) (by decide) (by decide) (by decide) rfl
  exact ⟨rfl, by simpa using h.1, by simpa using h.2⟩

theorem ite_lor_flags (c : Prop) [Decidable c] (f k : Nat) :
    (if c then f ||| k else f) = f ||| (if c then k else 0) := by
  split <;> simp

theorem header_status_flags_lin (h : EfctRxHeader) :
    header_status_flags h =
      (if h.l2_status = EFCT_RX_HEADER_L2_STATUS_FCS_ERR then
        EF_VI_DISCARD_RX_ETH_FCS_ERR else 0) |||
      (if h.l2_status = EFCT_RX_HEADER_L2_STATUS_LEN_ERR then
        EF_VI_DISCARD_RX_ETH_LEN_ERR else 0) |||
      (if h.l3_class = EFCT_RX_HEADER_L3_CLASS_IP4 ∧ h.l3_status ≠ 0 then
        EF_VI_DISCARD_RX_L3_CSUM_ERR else 0) |||
      (if h.l3_class = EFCT_RX_HEADER_L3_CLASS_IP6 ∧ h.l3_status ≠ 0 then
        EF_VI_DISCARD_RX_L3_CSUM_ERR else 0) |||
      (if h.l4_class = EFCT_RX_HEADER_L4_CLASS_TCP ∧ h.l4_status ≠ 0 then
        EF_VI_DISCARD_RX_L4_CSUM_ERR else 0) |||
      (if h.l4_class = EFCT_RX_HEADER_L4_CLASS_UDP ∧ h.l4_status ≠ 0 then
        EF_VI_DISCARD_RX_L4_CSUM_ERR else 0) |||
      (if h.l4_class = EFCT_RX_HEADER_L4_CLASS_OTHER then
        EF_VI_DISCARD_RX_L4_CLASS_OTHER else 0) |||
      (if h.l3_class = EFCT_RX_HEADER_L3_CLASS_OTHER then
        EF_VI_DISCARD_RX_L3_CLASS_OTHER else 0) |||
      (if h.l2_class = EFCT_RX_HEADER_L2_CLASS_OTHER then
        EF_VI_DISCARD_RX_L2_CLASS_OTHER else 0) := by
  simp only [header_status_flags, ite_lor_flags, Nat.zero_or]

set_option maxHeartbeats 2000000 in
theorem header_status_flags_eq_table (h : EfctRxHeader) :
    header_status_flags h = spec_discard_flags h := by
  rw [header_status_flags_lin, spec_discard_flags]
  simp only [EFCT_RX_HEADER_L3_CLASS_IP4, EFCT_RX_HEADER_L3_CLASS_IP6,
    EFCT_RX_HEADER_L3_CLASS_OTHER, EFCT_RX_HEADER_L4_CLASS_TCP,
    EFCT_RX_HEADER_L4_CLASS_UDP, EFCT_RX_HEADER_L4_CLASS_OTHER,
    EFCT_RX_HEADER_L2_CLASS_OTHER, EFCT_RX_HEADER_L2_STATUS_FCS_ERR,
    EFCT_RX_HEADER_L2_STATUS_LEN_ERR]
  by_cases h3a : h.l3_class = 0 <;>
  by_cases h3b : h.l3_class = 1 <;>
  by_cases h3s : h.l3_status = 0 <;>
  by_cases h4a : h.l4_class = 0 <;>
  by_cases h4b : h.l4_class = 1 <;>
  by_cases h4s : h.l4_status = 0 <;>
    simp [h3a, h3b, h3s, h4a, h4b, h4s, Nat.lor_assoc]

theorem efct_poll_rx_loop_first_event (h : EfctRxHeader) (env : EfctRxEnv)
    (s : EfctRxState) (fuel : Nat)
    (hh : efct_rx_next_header env.mem s.ptr.next = some h)
    (hro : h.rollover = 0) :
    (efct_poll_rx_loop env (fuel + 1) s).1.head? =
      some (if check_fields h ∧
          (header_status_flags h &&& env.rx_discard_mask) ≠ 0 then
        efct_rx_discard env.rxq_qid s.ptr.prev
          (header_status_flags h &&& env.rx_discard_mask) h
      else
        .rxRef s.ptr.prev h.packet_length env.rxq_qid h.filter h.user) := by
  by_cases hc : check_fields h ∧
      (header_status_flags h &&& env.rx_discard_mask) ≠ 0
  · rw [if_pos hc]
    simp only [efct_poll_rx_loop, hh]
    rw [if_pos ⟨hc.1, Or.inr hc.2⟩, if_neg (by simp [hro])]
    rfl
  · rw [if_neg hc]
    simp only [efct_poll_rx_loop, hh]
    rw [if_neg (by
      intro hcon
      exact hc ⟨hcon.1, hcon.2.resolve_left (by simp [hro])⟩)]
    rfl

/-- Counterexample to claim C5 as stated: a header whose only anomaly is
`L4_CLASS = OTHER` (all STATUS fields and ROLLOVER zero) has a nonzero
masked flag set when the discard mask includes `L4_CLASS_OTHER`, yet
`efct_poll_rx` emits a plain `RX_REF` event for it, because the
coarse-grained `CHECK_FIELDS` test only looks at the STATUS/ROLLOVER
fields. -/
theorem discard_classification_counterexample :
    (header_status_flags ⟨0, 0, 0, 0, 0, 0, 0, 3, 60, 5, 9, 1, 0, 0⟩ &&&
      64) ≠ 0 ∧
    (efct_poll_rx
        ⟨fun _ => ⟨0, 0, 0, 0, 0, 0, 0, 3, 60, 5, 9, 1, 0, 0⟩,
          0, 7, 64, 100, 0, none, true⟩
        ⟨⟨6, 5, 10⟩, ⟨fun _ => ⟨1, 1, 0, 0, 0⟩, []⟩, 0⟩ 1).1 =
      [.rxRef 5 60 7 5 9] := by
  constructor
  · decide
  · decide

/-- Claim C5 (amended): `header_status_flags` is a deterministic function
of the header equal to the spec's table; and for a valid non-rollover
header, `efct_poll_rx` emits `RX_REF_DISCARD` with flags
`header_status_flags & rx_discard_mask` exactly when the header has a
nonzero `L2/L3/L4_STATUS` or `ROLLOVER` field (the `CHECK_FIELDS` coarse
test) *and* the masked flags are nonzero; otherwise — including headers
whose only anomaly is a `CLASS_OTHER` classification — it emits `RX_REF`. -/
theorem discard_classification (h : EfctRxHeader) (env : EfctRxEnv)
    (s : EfctRxState) (fuel : Nat)
    (hh : efct_rx_next_header env.mem s.ptr.next = some h)
    (hro : h.rollover = 0) :
    header_status_flags h = spec_discard_flags h ∧
    (efct_poll_rx_loop env (fuel + 1) s).1.head? =
      some (if check_fields h ∧
          (header_status_flags h &&& env.rx_discard_mask) ≠ 0 then
        efct_rx_discard env.rxq_qid s.ptr.prev
          (header_status_flags h &&& env.rx_discard_mask) h
      else
        .rxRef s.ptr.prev h.packet_length env.rxq_qid h.filter h.user) :=
  ⟨header_status_flags_eq_table h,
   efct_poll_rx_loop_first_event h env s fuel hh hro⟩

/-- Witness for C5: an FCS-error header under a discard mask containing
`ETH_FCS_ERR` produces an `RX_REF_DISCARD` with exactly that flag. -/
theorem discard_classification_witness :
    (efct_rx_next_header (fun _ => ⟨0, 0, 1, 0, 0, 0, 0, 0, 60, 5, 9, 1, 0, 0⟩)
        6 = some ⟨0, 0, 1, 0, 0, 0, 0, 0, 60, 5, 9, 1, 0, 0⟩) ∧
    (EfctRxHeader.rollover ⟨0, 0, 1, 0, 0, 0, 0, 0, 60, 5, 9, 1, 0, 0⟩ = 0) ∧
    (header_status_flags ⟨0, 0, 1, 0, 0, 0, 0, 0, 60, 5, 9, 1, 0, 0⟩ =
      spec_discard_flags ⟨0, 0, 1, 0, 0, 0, 0, 0, 60, 5, 9, 1, 0, 0⟩ ∧
    (efct_poll_rx_loop
        ⟨fun _ => ⟨0, 0, 1, 0, 0, 0, 0, 0, 60, 5, 9, 1, 0, 0⟩,
          0, 7, 12, 100, 0, none, true⟩ (0 + 1)
        ⟨⟨6, 5, 10⟩, ⟨fun _ => ⟨1, 1, 0, 0, 0⟩, []⟩, 0⟩).1.head? =
      some (if check_fields ⟨0, 0, 1, 0, 0, 0, 0, 0, 60, 5, 9, 1, 0, 0⟩ ∧
          (header_status_flags ⟨0, 0, 1, 0, 0, 0, 0, 0, 60, 5, 9, 1, 0, 0⟩ &&&
            12) ≠ 0 then
        efct_rx_discard 7 5
          (header_status_flags ⟨0, 0, 1, 0, 0, 0, 0, 0, 60, 5, 9, 1, 0, 0⟩ &&&
            12) ⟨0, 0, 1, 0, 0, 0, 0, 0, 60, 5, 9, 1, 0, 0⟩
      else
        .rxRef 5 60 7 5 9)) :=
  ⟨by decide, by decide,
   discard_classification ⟨0, 0, 1, 0, 0, 0, 0, 0, 60, 5, 9, 1, 0, 0⟩
     ⟨fun _ => ⟨0, 0, 1, 0, 0, 0, 0, 0, 60, 5, 9, 1, 0, 0⟩,
       0, 7, 12, 100, 0, none, true⟩
     ⟨⟨6, 5, 10⟩, ⟨fun _ => ⟨1, 1, 0, 0, 0⟩, []⟩, 0⟩ 0 (by decide) (by decide)⟩

theorem rxq_ptr_to_pkt_id_eq_mod (ptr : Nat) :
    rxq_ptr_to_pkt_id ptr = ptr % 2 ^ 31 := by
  unfold rxq_ptr_to_pkt_id
  rw [show (0x7fffffff : Nat) = 2 ^ 31 - 1 by norm_num,
    Nat.and_pow_two_sub_one_eq_mod,
    Nat.mod_mod_of_dvd _ (by norm_num : (2 ^ 31 : Nat) ∣ 2 ^ 32)]

theorem efct_poll_rx_loop_succ_shape (env : EfctRxEnv) (fuel : Nat)
    (s : EfctRxState) :
    (efct_poll_rx_loop env (fuel + 1) s).1 = [] ∨
    ∃ ev s',
      (efct_poll_rx_loop env (fuel + 1) s).1 =
        ev :: (efct_poll_rx_loop env fuel s').1 ∧
      ef_event_pkt_id ev = s.ptr.prev ∧
      s'.ptr.prev = rxq_ptr_to_pkt_id s.ptr.next ∧
      s'.ptr.next = (s.ptr.next + 1) % 2 ^ 64 := by
  cases hh : efct_rx_next_header env.mem s.ptr.next with
  | none => exact Or.inl (by simp [efct_poll_rx_loop, hh])
  | some h =>
    by_cases hc : check_fields h ∧ (h.rollover ≠ 0 ∨
        (header_status_flags h &&& env.rx_discard_mask) ≠ 0)
    · by_cases hro : h.rollover ≠ 0
      · refine Or.inl ?_
        simp only [efct_poll_rx_loop, hh]
        rw [if_pos hc, if_pos hro]
      · refine Or.inr ?_
        simp only [efct_poll_rx_loop, hh]
        rw [if_pos hc, if_neg hro]
        exact ⟨_, _, rfl, rfl, rfl, rfl⟩
    · refine Or.inr ?_
      simp only [efct_poll_rx_loop, hh]
      rw [if_neg hc]
      exact ⟨_, _, rfl, rfl, rfl, rfl⟩

theorem efct_poll_rx_loop_pkt_ids (env : EfctRxEnv) (fuel : Nat)
    (s : EfctRxState)
    (hcarry : rxq_ptr_to_pkt_id s.ptr.next + fuel ≤ 2 ^ 31) :
    (efct_poll_rx_loop env fuel s).1.length ≤ fuel ∧
    ∀ i (hi : i < (efct_poll_rx_loop env fuel s).1.length),
      ef_event_pkt_id ((efct_poll_rx_loop env fuel s).1.get ⟨i, hi⟩) =
        (if i = 0 then s.ptr.prev
         else rxq_ptr_to_pkt_id s.ptr.next + (i - 1)) := by
  induction fuel generalizing s with
  | zero =>
    refine ⟨by simp [efct_poll_rx_loop], ?_⟩
    intro i hi
    simp [efct_poll_rx_loop] at hi
  | succ fuel ih =>
    rcases efct_poll_rx_loop_succ_shape env fuel s with
      hnil | ⟨ev, s', heq, hev, hprev, hnext⟩
    · rw [hnil]
      exact ⟨by simp, fun i hi => by simp at hi⟩
    · have hmod : rxq_ptr_to_pkt_id s'.ptr.next = (s.ptr.next + 1) % 2 ^ 31 := by
        rw [rxq_ptr_to_pkt_id_eq_mod, hnext,
          Nat.mod_mod_of_dvd _ (by norm_num : (2 ^ 31 : Nat) ∣ 2 ^ 64)]
      have hmods : rxq_ptr_to_pkt_id s.ptr.next = s.ptr.next % 2 ^ 31 :=
        rxq_ptr_to_pkt_id_eq_mod _
      have hcarry' : rxq_ptr_to_pkt_id s'.ptr.next + fuel ≤ 2 ^ 31 := by
        rw [hmod]; omega
      rcases ih s' hcarry' with ⟨ihlen, ihget⟩
      rw [heq]
      refine ⟨by simpa using Nat.succ_le_succ ihlen, ?_⟩
      intro i hi
      match i with
      | 0 => simpa using hev
      | (j : Nat) + 1 =>
        have hj : j < (efct_poll_rx_loop env fuel s').1.length := by
          simpa using hi
        have := ihget j hj
        rw [show ((ev :: (efct_poll_rx_loop env fuel s').1).get
            ⟨j + 1, hi⟩) = (efct_poll_rx_loop env fuel s').1.get ⟨j, hj⟩
          from rfl]
        rw [this]
        match j with
        | 0 => simpa using hprev
        | (k : Nat) + 1 =>
          have hk2 : 2 ≤ (efct_poll_rx_loop env fuel s').1.length := by omega
          have hfuel2 : 2 ≤ fuel := le_trans hk2 ihlen
          have hb : s.ptr.next % 2 ^ 31 + (fuel + 1) ≤ 2 ^ 31 := by
            rw [← hmods]; exact hcarry
          have hsucc : rxq_ptr_to_pkt_id s'.ptr.next =
              rxq_ptr_to_pkt_id s.ptr.next + 1 := by
            rw [hmod, hmods]
            omega
          rw [if_neg (Nat.succ_ne_zero k), if_neg (Nat.succ_ne_zero (k + 1)),
            hsucc]
          omega

/-- Counterexample to claim C4 as stated: right after a normal (steady
state) rollover, `prev` still points into the finished superbuf, so a
single `efct_poll_rx` call emits one event for the previous superbuf
(global index 0) followed by events for the new one (global index 1); the
emitted packet ids do not all share one global superbuf index. -/
theorem poll_rx_single_superbuf_counterexample :
    (efct_poll_rx
        ⟨fun _ => ⟨0, 0, 0, 0, 0, 0, 0, 0, 60, 5, 9, 1, 0, 0⟩,
          0, 7, 13, 100, 0, none, true⟩
        ⟨⟨65536, 1, 65538⟩, ⟨fun _ => ⟨2, 2, 0, 0, 0⟩, []⟩, 0⟩ 2).1 =
      [.rxRef 1 60 7 5 9, .rxRef 65536 60 7 5 9] ∧
    pkt_id_to_global_superbuf_ix 1 ≠ pkt_id_to_global_superbuf_ix 65536 :=
  ⟨by decide, by decide⟩

/-- Claim C4 (amended): a single RX poll never advances `next` across a
superbuf boundary.  When no rollover or config refresh is pending, the
number of events emitted by `efct_poll_rx` is clamped to
`min(evs_len, end - pkt_id_of(next))`; the first event (if any) carries
`prev` — which may lie in the preceding superbuf immediately after a
rollover — and every later event carries a packet id in the same superbuf
as `pkt_id_of(next)` at entry; the next poll triggers a rollover instead
of crossing `end`. -/
theorem poll_rx_single_superbuf (env : EfctRxEnv) (s : EfctRxState)
    (evs_len : Nat)
    (hro : efct_rxq_need_rollover s.ptr = false)
    (hcfg : env.live_config_generation = s.config_generation)
    (hend31 : s.ptr.endId < 2 ^ 31)
    (hsb : s.ptr.endId ≤
      (pkt_id_to_global_superbuf_ix (rxq_ptr_to_pkt_id s.ptr.next) + 1) *
        2 ^ 16) :
    (efct_poll_rx env s evs_len).1.length ≤
      min evs_len (s.ptr.endId - rxq_ptr_to_pkt_id s.ptr.next) ∧
    (∀ hi : 0 < (efct_poll_rx env s evs_len).1.length,
      ef_event_pkt_id ((efct_poll_rx env s evs_len).1.get ⟨0, hi⟩) =
        s.ptr.prev) ∧
    (∀ i (hi : i < (efct_poll_rx env s evs_len).1.length), 0 < i →
      pkt_id_to_global_superbuf_ix
        (ef_event_pkt_id ((efct_poll_rx env s evs_len).1.get ⟨i, hi⟩)) =
        pkt_id_to_global_superbuf_ix (rxq_ptr_to_pkt_id s.ptr.next)) := by
  have hlt : rxq_ptr_to_pkt_id s.ptr.next < s.ptr.endId := by
    simp only [efct_rxq_need_rollover, decide_eq_false_iff_not, ge_iff_le,
      not_le] at hro
    exact hro
  have hred : efct_poll_rx env s evs_len =
      efct_poll_rx_loop env
        (min evs_len (s.ptr.endId - rxq_ptr_to_pkt_id s.ptr.next)) s := by
    simp [efct_poll_rx, hro, hcfg]
  have hcarry : rxq_ptr_to_pkt_id s.ptr.next +
      min evs_len (s.ptr.endId - rxq_ptr_to_pkt_id s.ptr.next) ≤ 2 ^ 31 := by
    omega
  rcases efct_poll_rx_loop_pkt_ids env
    (min evs_len (s.ptr.endId - rxq_ptr_to_pkt_id s.ptr.next)) s hcarry with
    ⟨hlen, hget⟩
  rw [hred]
  have hdiv : ∀ x : Nat, pkt_id_to_global_superbuf_ix x = x / 2 ^ 16 :=
    fun x => by
      unfold pkt_id_to_global_superbuf_ix PKT_ID_PKT_BITS
      exact Nat.shiftRight_eq_div_pow _ _
  refine ⟨hlen, ?_, ?_⟩
  · intro hi
    simpa using hget 0 hi
  · intro i hi hpos
    have := hget i hi
    rw [if_neg (by omega : ¬(i = 0))] at this
    rw [this, hdiv, hdiv]
    rw [hdiv] at hsb
    have hiu : i - 1 < min evs_len
        (s.ptr.endId - rxq_ptr_to_pkt_id s.ptr.next) := by omega
    omega

/-- Witness for C4 at a concrete mid-superbuf state: one packet left in
the current superbuf, `evs_len = 5`, so at most one event is emitted. -/
theorem poll_rx_single_superbuf_witness :
    (efct_rxq_need_rollover
      (({ ptr := ⟨65537, 65536, 65538⟩,
          ds := ⟨fun _ => ⟨2, 2, 0, 0, 0⟩, []⟩,
          config_generation := 0 } : EfctRxState)).ptr = false) ∧
    ((efct_poll_rx
        ⟨fun _ => ⟨0, 0, 0, 0, 0, 0, 0, 0, 60, 5, 9, 1, 0, 0⟩,
          0, 7, 13, 100, 0, none, true⟩
        ⟨⟨65537, 65536, 65538⟩, ⟨fun _ => ⟨2, 2, 0, 0, 0⟩, []⟩, 0⟩ 5).1.length ≤
      min 5 (65538 - rxq_ptr_to_pkt_id 65537)) :=
  ⟨by decide,
   (poll_rx_single_superbuf
     ⟨fun _ => ⟨0, 0, 0, 0, 0, 0, 0, 0, 60, 5, 9, 1, 0, 0⟩,
       0, 7, 13, 100, 0, none, true⟩
     ⟨⟨65537, 65536, 65538⟩, ⟨fun _ => ⟨2, 2, 0, 0, 0⟩, []⟩, 0⟩ 5
     (by decide) (by decide) (by decide) (by decide)).1⟩

theorem tx_word_fold_shape (l : List Nat) :
    ∀ p : EfctTxSt × EfctTxOp,
    ∃ ap off, l.foldl (fun q _ => efct_tx_word q.1 q.2 0) p =
      ({ p.1 with aperture := ap }, { p.2 with offset := off }) := by
  induction l with
  | nil => exact fun p => ⟨p.1.aperture, p.2.offset, rfl⟩
  | cons a t ih =>
    intro p
    rcases ih (efct_tx_word p.1 p.2 0) with ⟨ap, off, hh⟩
    exact ⟨ap, off, by rw [List.foldl_cons, hh]; rfl⟩

theorem efct_tx_complete_shape (v : EfctTxSt) (tx : EfctTxOp)
    (dma_id len : Nat) :
    ∃ ap tx', efct_tx_complete v tx dma_id len =
      ({ v with
         aperture := ap,
         desc_len := updf v.desc_len (v.added &&& v.qmask)
           ((((len + EFCT_TX_HEADER_BYTES + EFCT_TX_ALIGNMENT - 1) /
             EFCT_TX_ALIGNMENT) * EFCT_TX_ALIGNMENT) % 2 ^ 16),
         ids := updf v.ids (v.added &&& v.qmask) (dma_id % 2 ^ 32),
         ct_added := (v.ct_added + ((len + EFCT_TX_HEADER_BYTES +
           EFCT_TX_ALIGNMENT - 1) / EFCT_TX_ALIGNMENT) * EFCT_TX_ALIGNMENT) %
           2 ^ 32,
         added := (v.added + 1) % 2 ^ 32 }, tx') := by
  unfold efct_tx_complete
  by_cases htl : tx.tail_len ≠ 0
  · simp only [if_pos htl]
    rcases tx_word_fold_shape
      (List.range ((8 - (efct_tx_word v
          { tx with tail := (tx.tail <<< ((8 - tx.tail_len) * 8)) % 2 ^ 64 }
          (bswap64 ((tx.tail <<< ((8 - tx.tail_len) * 8)) % 2 ^ 64))).2.offset
          % 8) % 8))
      (efct_tx_word v
        { tx with tail := (tx.tail <<< ((8 - tx.tail_len) * 8)) % 2 ^ 64 }
        (bswap64 ((tx.tail <<< ((8 - tx.tail_len) * 8)) % 2 ^ 64))) with
      ⟨ap, off, hh⟩
    rw [hh]
    exact ⟨ap, _, by rfl⟩
  · simp only [if_neg htl]
    rcases tx_word_fold_shape
      (List.range ((8 - tx.offset % 8) % 8)) (v, tx) with ⟨ap, off, hh⟩
    rw [hh]
    exact ⟨ap, _, by rfl⟩

/-- Claim C6: postcondition of `efct_tx_complete`.  For every transmit of
payload length `len` recorded with `dma_id`, the descriptor at
`added & mask` gets length `roundup(len + 8, 64)`, the ids slot gets
`dma_id`, `ct_added` grows by the rounded length and `added` by exactly 1;
`ct_added` remains a multiple of 64. -/
theorem efct_tx_complete_postcondition (v : EfctTxSt) (tx : EfctTxOp)
    (dma_id len : Nat)
    (hlen : ((len + EFCT_TX_HEADER_BYTES + EFCT_TX_ALIGNMENT - 1) /
      EFCT_TX_ALIGNMENT) * EFCT_TX_ALIGNMENT < 2 ^ 16)
    (hdma : dma_id < 2 ^ 32)
    (hadd : v.added + 1 < 2 ^ 32)
    (hct : v.ct_added + ((len + EFCT_TX_HEADER_BYTES + EFCT_TX_ALIGNMENT - 1) /
      EFCT_TX_ALIGNMENT) * EFCT_TX_ALIGNMENT < 2 ^ 32) :
    (efct_tx_complete v tx dma_id len).1.desc_len (v.added &&& v.qmask) =
      ((len + EFCT_TX_HEADER_BYTES + EFCT_TX_ALIGNMENT - 1) /
        EFCT_TX_ALIGNMENT) * EFCT_TX_ALIGNMENT ∧
    (efct_tx_complete v tx dma_id len).1.ids (v.added &&& v.qmask) = dma_id ∧
    (efct_tx_complete v tx dma_id len).1.ct_added = v.ct_added +
      ((len + EFCT_TX_HEADER_BYTES + EFCT_TX_ALIGNMENT - 1) /
        EFCT_TX_ALIGNMENT) * EFCT_TX_ALIGNMENT ∧
    (efct_tx_complete v tx dma_id len).1.added = v.added + 1 ∧
    (v.ct_added % 64 = 0 →
      (efct_tx_complete v tx dma_id len).1.ct_added % 64 = 0) := by
  rcases efct_tx_complete_shape v tx dma_id len with ⟨ap, tx', hh⟩
  rw [hh]
  refine ⟨?_, ?_, ?_, ?_, ?_⟩
  · simp [updf]
    omega
  · simp [updf]
    omega
  · simp
    omega
  · simp
    omega
  · intro h64
    simp [EFCT_TX_ALIGNMENT, EFCT_TX_HEADER_BYTES]
    omega

/-- Witness for C6: the spec's S1 numbers — `len = 100` rounds up to a
128-byte descriptor, `ct_added` goes from 0 to 128, `added` to 1. -/
theorem efct_tx_complete_postcondition_witness :
    (((100 + EFCT_TX_HEADER_BYTES + EFCT_TX_ALIGNMENT - 1) /
      EFCT_TX_ALIGNMENT) * EFCT_TX_ALIGNMENT < 2 ^ 16) ∧
    ((efct_tx_complete sampleTxSt sampleTxOp 0xAA 100).1.desc_len
        (sampleTxSt.added &&& sampleTxSt.qmask) = 128 ∧
     (efct_tx_complete sampleTxSt sampleTxOp 0xAA 100).1.ids
        (sampleTxSt.added &&& sampleTxSt.qmask) = 0xAA ∧
     (efct_tx_complete sampleTxSt sampleTxOp 0xAA 100).1.ct_added = 128 ∧
     (efct_tx_complete sampleTxSt sampleTxOp 0xAA 100).1.added = 1 ∧
     (sampleTxSt.ct_added % 64 = 0 →
       (efct_tx_complete sampleTxSt sampleTxOp 0xAA 100).1.ct_added % 64 =
         0)) :=
  ⟨by decide,
   efct_tx_complete_postcondition sampleTxSt sampleTxOp 0xAA 100
     (by decide) (by decide) (by decide) (by decide)⟩

/-- Claim C7: TX back-pressure is atomic.  If the collaborator-computed
space is below the total length, `efct_ef_vi_transmit` (resp.
`efct_ef_vi_transmitv`) returns `-EAGAIN` and leaves the whole TX state —
counters, ring, ids and the aperture write log — unchanged; otherwise it
returns 0. -/
theorem transmit_backpressure_atomic (v : EfctTxSt) (space : Nat)
    (base : List Nat) (iov : List (List Nat)) (dma_id dma_id2 : Nat) :
    (space < base.length →
      (efct_ef_vi_transmit v space base dma_id).1 = -EAGAIN ∧
      (efct_ef_vi_transmit v space base dma_id).2 = v) ∧
    (space ≥ base.length →
      (efct_ef_vi_transmit v space base dma_id).1 = 0) ∧
    (space < (iov.map List.length).sum →
      (efct_ef_vi_transmitv v space iov dma_id2).1 = -EAGAIN ∧
      (efct_ef_vi_transmitv v space iov dma_id2).2 = v) ∧
    (space ≥ (iov.map List.length).sum →
      (efct_ef_vi_transmitv v space iov dma_id2).1 = 0) := by
  refine ⟨fun hlt => ?_, fun hge => ?_, fun hlt => ?_, fun hge => ?_⟩
  · constructor <;>
      simp [efct_ef_vi_transmit, efct_tx_check, Nat.not_le.mpr hlt]
  · simp [efct_ef_vi_transmit, efct_tx_check, hge]
  · constructor <;>
      simp [efct_ef_vi_transmitv, efct_tx_check, Nat.not_le.mpr hlt]
  · simp [efct_ef_vi_transmitv, efct_tx_check, hge]

/-- Witness for C7: a 10-byte send with only 5 bytes of space fails with
`-EAGAIN` and leaves the state untouched. -/
theorem transmit_backpressure_atomic_witness :
    (5 : Nat) < (List.replicate 10 (0 : Nat)).length ∧
    ((efct_ef_vi_transmit sampleTxSt 5 (List.replicate 10 0) 7).1 =
      -EAGAIN ∧
     (efct_ef_vi_transmit sampleTxSt 5 (List.replicate 10 0) 7).2 =
      sampleTxSt) :=
  ⟨by decide,
   (transmit_backpressure_atomic sampleTxSt 5 (List.replicate 10 0) [] 7
     7).1 (by decide)⟩

theorem ctrl_event_no_tx (v : EfctTxSt) (e : EfctEvWord) :
    (efct_tx_handle_control_event v e).2.filter isTxEvent = [] ∧
    (efct_tx_handle_control_event v e).2.length ≤ 1 := by
  unfold efct_tx_handle_control_event efct_tx_handle_error_event
  split_ifs <;> simp [isTxEvent]

theorem filter_dropLast_append_nil {l1 l2 : List EfEvent}
    (h1 : l1.filter isTxEvent = []) (h2 : l2.dropLast.filter isTxEvent = []) :
    (l1 ++ l2).dropLast.filter isTxEvent = [] := by
  cases l2 with
  | nil =>
    rw [List.append_nil, List.filter_eq_nil_iff]
    intro a ha
    exact (List.filter_eq_nil_iff.mp h1) a (List.dropLast_subset _ ha)
  | cons b t =>
    rw [List.dropLast_append_cons, List.filter_append, h1, h2,
      List.append_nil]

/-- Claim C8: at most one TX completion event per poll.  For every
iteration budget, state and capacity, the events emitted by
`efct_poll_tx` contain at most one TX / TX_WITH_TIMESTAMP event, and if
one is present it is the last event — the function returns immediately
after emitting it, so no event of any kind is consumed afterwards in the
same call. -/
theorem efct_poll_tx_at_most_one_tx (mem : Nat → EfctEvWord) (fuel : Nat) :
    ∀ (v : EfctTxSt) (cap : Nat),
    ((efct_poll_tx mem fuel v cap).1.filter isTxEvent).length ≤ 1 ∧
    (efct_poll_tx mem fuel v cap).1.dropLast.filter isTxEvent = [] := by
  induction fuel with
  | zero => intro v cap; simp [efct_poll_tx]
  | succ fuel ih =>
    intro v cap
    by_cases hcap : cap = 0
    · simp [efct_poll_tx, hcap]
    · cases hev : efct_tx_get_event mem v.evq_mask v.evq_ptr with
      | none => simp [efct_poll_tx, hcap, hev]
      | some e =>
        by_cases htx : e.etype = EFCT_EVENT_TYPE_TX
        · have hred : (efct_poll_tx mem (fuel + 1) v cap).1 =
              [(efct_tx_handle_event
                { v with evq_ptr := (v.evq_ptr + 8) % 2 ^ 32 } e).2] := by
            simp [efct_poll_tx, hcap, hev, htx]
          rw [hred]
          refine ⟨?_, by simp⟩
          calc (List.filter isTxEvent [_]).length ≤ [_].length :=
              List.length_filter_le _ _
            _ = 1 := rfl
        · by_cases hct : e.etype = EFCT_EVENT_TYPE_CONTROL
          · have hred : (efct_poll_tx mem (fuel + 1) v cap).1 =
                (efct_tx_handle_control_event
                  { v with evq_ptr := (v.evq_ptr + 8) % 2 ^ 32 } e).2 ++
                (efct_poll_tx mem fuel
                  (efct_tx_handle_control_event
                    { v with evq_ptr := (v.evq_ptr + 8) % 2 ^ 32 } e).1
                  (cap - (efct_tx_handle_control_event
                    { v with evq_ptr := (v.evq_ptr + 8) % 2 ^ 32 }
                    e).2.length)).1 := by
              simp [efct_poll_tx, hcap, hev, htx, hct,
                EFCT_EVENT_TYPE_TX, EFCT_EVENT_TYPE_CONTROL]
            have hc := ctrl_event_no_tx
              { v with evq_ptr := (v.evq_ptr + 8) % 2 ^ 32 } e
            have hr := ih (efct_tx_handle_control_event
                { v with evq_ptr := (v.evq_ptr + 8) % 2 ^ 32 } e).1
              (cap - (efct_tx_handle_control_event
                { v with evq_ptr := (v.evq_ptr + 8) % 2 ^ 32 } e).2.length)
            rw [hred]
            constructor
            · rw [List.filter_append, hc.1, List.nil_append]
              exact hr.1
            · exact filter_dropLast_append_nil hc.1 hr.2
          · have hred : efct_poll_tx mem (fuel + 1) v cap =
                efct_poll_tx mem fuel
                  { v with evq_ptr := (v.evq_ptr + 8) % 2 ^ 32 } cap := by
              simp [efct_poll_tx, hcap, hev, htx, hct]
            rw [hred]
            exact ih _ _

/-- Counterexample to claim C9 as stated: handling a CONTROL/ERROR event
increments `previous` (it becomes the emitted `desc_id`), so the TX queue
state is not left fully unchanged. -/
theorem tx_error_event_counterexample :
    (EfctEvWord.subtype ⟨1, 1, 0, 3, 0, 0, 0, 4, 2, 0, 0, 0⟩ =
      EFCT_CTRL_EV_ERROR) ∧
    (efct_tx_handle_control_event sampleTxSt
        ⟨1, 1, 0, 3, 0, 0, 0, 4, 2, 0, 0, 0⟩).1.previous ≠
      sampleTxSt.previous :=
  ⟨by decide, by decide⟩

/-- Claim C9 (amended): on a CONTROL event of subtype ERROR the handler
emits one TX_ERROR event with `q_id` from the event's LABEL field and
`subtype` from its REASON field, performs no TX queue state fixup of
`added`, `removed`, `ct_added` or `ct_removed` — but it does increment
`previous` by one, which becomes the event's `desc_id`. -/
theorem tx_error_event_effect (v : EfctTxSt) (e : EfctEvWord)
    (hsub : e.subtype = EFCT_CTRL_EV_ERROR) :
    (efct_tx_handle_control_event v e).2 =
      [.txError e.error_label e.error_reason ((v.previous + 1) % 2 ^ 32)] ∧
    (efct_tx_handle_control_event v e).1.previous =
      (v.previous + 1) % 2 ^ 32 ∧
    (efct_tx_handle_control_event v e).1.added = v.added ∧
    (efct_tx_handle_control_event v e).1.removed = v.removed ∧
    (efct_tx_handle_control_event v e).1.ct_added = v.ct_added ∧
    (efct_tx_handle_control_event v e).1.ct_removed = v.ct_removed := by
  unfold efct_tx_handle_control_event efct_tx_handle_error_event
  rw [if_pos hsub]
  exact ⟨rfl, rfl, rfl, rfl, rfl, rfl⟩

/-- Witness for C9 on the concrete error event with LABEL 4, REASON 2. -/
theorem tx_error_event_effect_witness :
    (EfctEvWord.subtype ⟨1, 1, 0, 3, 0, 0, 0, 4, 2, 0, 0, 0⟩ =
      EFCT_CTRL_EV_ERROR) ∧
    ((efct_tx_handle_control_event sampleTxSt
        ⟨1, 1, 0, 3, 0, 0, 0, 4, 2, 0, 0, 0⟩).2 =
      [.txError 4 2 ((sampleTxSt.previous + 1) % 2 ^ 32)] ∧
     (efct_tx_handle_control_event sampleTxSt
        ⟨1, 1, 0, 3, 0, 0, 0, 4, 2, 0, 0, 0⟩).1.previous =
      (sampleTxSt.previous + 1) % 2 ^ 32 ∧
     (efct_tx_handle_control_event sampleTxSt
        ⟨1, 1, 0, 3, 0, 0, 0, 4, 2, 0, 0, 0⟩).1.added = sampleTxSt.added ∧
     (efct_tx_handle_control_event sampleTxSt
        ⟨1, 1, 0, 3, 0, 0, 0, 4, 2, 0, 0, 0⟩).1.removed =
      sampleTxSt.removed ∧
     (efct_tx_handle_control_event sampleTxSt
        ⟨1, 1, 0, 3, 0, 0, 0, 4, 2, 0, 0, 0⟩).1.ct_added =
      sampleTxSt.ct_added ∧
     (efct_tx_handle_control_event sampleTxSt
        ⟨1, 1, 0, 3, 0, 0, 0, 4, 2, 0, 0, 0⟩).1.ct_removed =
      sampleTxSt.ct_removed) :=
  ⟨by decide,
   tx_error_event_effect sampleTxSt ⟨1, 1, 0, 3, 0, 0, 0, 4, 2, 0, 0, 0⟩
     (by decide)⟩

/-- Claim C10: discard-mask set/get round-trip.  `receive_set_discards`
always returns 0 and stores exactly the intersection of the input with
the seven supported flags (unsupported bits are dropped, bit by bit), and
`receive_get_discards` returns that masked value. -/
theorem receive_discards_round_trip (vi : EfViRx) (f : Nat) :
    (efct_ef_vi_receive_set_discards vi f).1 = 0 ∧
    (efct_ef_vi_receive_set_discards vi f).2.rx_discard_mask =
      f &&& (EF_VI_DISCARD_RX_L4_CSUM_ERR |||
        EF_VI_DISCARD_RX_L3_CSUM_ERR |||
        EF_VI_DISCARD_RX_ETH_FCS_ERR |||
        EF_VI_DISCARD_RX_ETH_LEN_ERR |||
        EF_VI_DISCARD_RX_L2_CLASS_OTHER |||
        EF_VI_DISCARD_RX_L3_CLASS_OTHER |||
        EF_VI_DISCARD_RX_L4_CLASS_OTHER) ∧
    efct_ef_vi_receive_get_discards
        (efct_ef_vi_receive_set_discards vi f).2 =
      f &&& (EF_VI_DISCARD_RX_L4_CSUM_ERR |||
        EF_VI_DISCARD_RX_L3_CSUM_ERR |||
        EF_VI_DISCARD_RX_ETH_FCS_ERR |||
        EF_VI_DISCARD_RX_ETH_LEN_ERR |||
        EF_VI_DISCARD_RX_L2_CLASS_OTHER |||
        EF_VI_DISCARD_RX_L3_CLASS_OTHER |||
        EF_VI_DISCARD_RX_L4_CLASS_OTHER) ∧
    (∀ b, ((efct_ef_vi_receive_set_discards vi f).2.rx_discard_mask).testBit
        b = (f.testBit b &&
          (EF_VI_DISCARD_RX_L4_CSUM_ERR |||
           EF_VI_DISCARD_RX_L3_CSUM_ERR |||
           EF_VI_DISCARD_RX_ETH_FCS_ERR |||
           EF_VI_DISCARD_RX_ETH_LEN_ERR |||
           EF_VI_DISCARD_RX_L2_CLASS_OTHER |||
           EF_VI_DISCARD_RX_L3_CLASS_OTHER |||
           EF_VI_DISCARD_RX_L4_CLASS_OTHER).testBit b)) :=
  ⟨rfl, rfl, rfl, fun b => Nat.testBit_land f _ b⟩
